import Mathlib

/-!
Verification of the asset/content ingestion and caching pipeline of the
kuaby ad-copy repository.

The TypeScript services are shallowly embedded as pure Lean functions:

* database tables become `List` values of row structures; Drizzle
  `select/update/insert/delete` calls become `List.find?`, `List.map`,
  append and `List.filter`;
* wall-clock instants (`new Date()`, `Date.now()`) become an explicit
  `now : Int` parameter measured in milliseconds since the epoch;
* network / subprocess collaborators (Dropbox HTTP endpoints, the speech
  and vision APIs, ffmpeg) become explicit response parameters fed to the
  embedded control flow;
* JavaScript strings become Lean `String` / `List Char`, and the handful
  of string primitives the code uses (`replace(/re/g)`, `includes`,
  `trim`, template-literal number rendering) are implemented below as
  structurally recursive functions so that every definition evaluates
  under `decide`.

Floating point: every arithmetic comparison performed by the code on
dates is of the form `(now - t) / 86400000 ≤ d` with integer inputs; it
is embedded in the equivalent denominator-cleared integer form
`now - t ≤ d * 86400000`, which agrees with the IEEE-double evaluation
for all realistic magnitudes (the boundary value is exactly
representable and the quotient rounding cannot cross an integer bound).
-/

/-! ## Generic string helpers (JS primitives) -/

/-- One decimal digit as a character. -/
def digitChar (n : Nat) : Char := Char.ofNat (48 + n)

/-- Decimal digits of `n`, least significant first.  Fuel-structured so
that it reduces in the kernel; `fuel = n + 1` always suffices. -/
def natDigitsRev : Nat → Nat → List Char
  | 0, _ => []
  | fuel + 1, n =>
    if n < 10 then [digitChar n]
    else digitChar (n % 10) :: natDigitsRev fuel (n / 10)

/-- JavaScript template-literal / `toString` rendering of a nonnegative
integer (decimal, no exponent form in the integral range used here). -/
def natToStr (n : Nat) : String := String.mk (natDigitsRev (n + 1) n).reverse

/-- JavaScript decimal rendering of an integer. -/
def intToStr (i : Int) : String :=
  if i < 0 then ("-") ++ natToStr i.natAbs else natToStr i.natAbs

/-- Core loop of the global string replace: scan the subject, and at
every position where the pattern `pc :: pcs` is a prefix, emit `rep` and
skip past the match (JS `String.replace` with a `/g` literal pattern).
Fuel-structured; `fuel = subject length` suffices because every step
consumes at least one character. -/
def replaceChars (pc : Char) (pcs rep : List Char) : Nat → List Char → List Char
  | 0, s => s
  | _ + 1, [] => []
  | fuel + 1, c :: rest =>
    if List.isPrefixOf (pc :: pcs) (c :: rest) then
      rep ++ replaceChars pc pcs rep fuel (rest.drop pcs.length)
    else
      c :: replaceChars pc pcs rep fuel rest

/-- JS `subject.replace(/pat/g, rep)` for a literal pattern `pat`. -/
def replaceAllStr (pat rep s : String) : String :=
  match pat.data with
  | [] => s
  | pc :: pcs => String.mk (replaceChars pc pcs rep.data s.data.length s.data)

/-- Does `pat` occur as a contiguous run inside the subject?  (JS
`String.includes`.) -/
def containsSub (pat : List Char) : List Char → Bool
  | [] => pat.isEmpty
  | c :: rest => List.isPrefixOf pat (c :: rest) || containsSub pat rest

/-- JS `s.includes(pat)`. -/
def strContainsB (s pat : String) : Bool := containsSub pat.data s.data

/-- JS `String.trim` on character lists. -/
def trimChars (l : List Char) : List Char :=
  (((l.dropWhile Char.isWhitespace).reverse).dropWhile Char.isWhitespace).reverse

/-- JS `s.trim()`. -/
def strTrim (s : String) : String := String.mk (trimChars s.data)

/-- Number of milliseconds in a day (`1000 * 60 * 60 * 24`). -/
def msPerDay : Int := 86400000

/-! ## Content Interpretation Cache
(`AssetInterpretationService`, src/unnamed/part_002) -/

/-- The metadata map stored alongside an interpretation
(`Record<string, any>` holding the keys this code writes and reads). -/
structure CacheMeta where
  confidence : Option Int
  duration : Option Int
  processingTime : Int
  fileName : Option String
deriving DecidableEq, Repr

/-- The empty metadata map (default argument `metadata = {}`). -/
def CacheMeta.empty : CacheMeta :=
  { confidence := none, duration := none, processingTime := 0, fileName := none }

/-- One row of the `asset_interpretation_cache` table. -/
structure AssetInterpRow where
  id : String
  dropboxFileId : String
  fileType : String
  interpretation : String
  processingMethod : String
  metadata : CacheMeta
  createdAt : Int
  updatedAt : Int
deriving DecidableEq, Repr

/-- `AssetInterpretationService.getCachedInterpretation`: select the
first row whose `dropboxFileId` matches (`.limit(1)`). -/
def getCachedInterpretation (table : List AssetInterpRow) (dropboxFileId : String) :
    Option AssetInterpRow :=
  table.find? (fun r => r.dropboxFileId == dropboxFileId)

/-- `AssetInterpretationService.cacheInterpretation`: check whether a
row for the file id exists; update it in place if so, insert otherwise.
Returns the object the service returns together with the new table.
`now` is the wall clock at the call, `newId` the freshly drawn nanoid. -/
def cacheInterpretation (table : List AssetInterpRow) (now : Int) (newId : String)
    (dropboxFileId fileType interpretation processingMethod : String)
    (metadata : CacheMeta) : AssetInterpRow × List AssetInterpRow :=
  match getCachedInterpretation table dropboxFileId with
  | some existing =>
    ({ existing with
        interpretation := interpretation
        processingMethod := processingMethod
        metadata := metadata
        updatedAt := now },
     table.map (fun r =>
       if r.dropboxFileId == dropboxFileId then
         { r with
            interpretation := interpretation
            processingMethod := processingMethod
            metadata := metadata
            updatedAt := now }
       else r))
  | none =>
    let row : AssetInterpRow :=
      { id := newId
        dropboxFileId := dropboxFileId
        fileType := fileType
        interpretation := interpretation
        processingMethod := processingMethod
        metadata := metadata
        createdAt := now
        updatedAt := now }
    (row, table ++ [row])

/-- `AssetInterpretationService.isInterpretationFresh`: a cached row is
fresh when `(now - updatedAt) / 86400000 ≤ maxAgeInDays`; the division
is cleared against the positive denominator. -/
def isInterpretationFresh (table : List AssetInterpRow) (now : Int)
    (dropboxFileId : String) (maxAgeInDays : Int) : Bool :=
  match getCachedInterpretation table dropboxFileId with
  | none => false
  | some cached => decide (now - cached.updatedAt ≤ maxAgeInDays * msPerDay)

/-- `AssetInterpretationService.cleanupOldEntries`: delete the rows with
`updatedAt < cutoff` where `cutoff` is `now` moved back `maxAgeInDays`
calendar days (`cutoffDate.setDate(getDate() - maxAgeInDays)`), and
return the deleted row count. -/
def cleanupOldEntries (table : List AssetInterpRow) (now maxAgeInDays : Int) :
    List AssetInterpRow × Nat :=
  let cutoffDate := now - maxAgeInDays * msPerDay
  (table.filter (fun r => !(decide (r.updatedAt < cutoffDate))),
   (table.filter (fun r => decide (r.updatedAt < cutoffDate))).length)

/-! ## Landing Page Cache (`WebScraperService`, web-scraper.ts) -/

/-- The `ScrapedContent.metadata` object. -/
structure ScrapedMeta where
  description : Option String
  keywords : Option (List String)
  ogTitle : Option String
  ogDescription : Option String
  scrapedAt : String
  processingTime : Int
  method : String
  contentLength : Nat
deriving DecidableEq, Repr

/-- The `ScrapedContent` result shape. -/
structure ScrapedContent where
  url : String
  title : String
  content : String
  success : Bool
  error : Option String
  metadata : ScrapedMeta
deriving DecidableEq, Repr

/-- One row of the `landing_page_cache` table. -/
structure LandingPageRow where
  id : String
  url : String
  title : Option String
  content : String
  metadata : Option ScrapedMeta
  createdAt : Int
  updatedAt : Int
deriving DecidableEq, Repr

/-- Abstract stand-in for `Date.toISOString()`; the claims under
verification never inspect the format of this string. -/
def isoRender (t : Int) : String := intToStr t

/-- `WebScraperService.getCachedContent`: look the URL up; a hit older
than the 7-day TTL (`(now - createdAt) / 86400000 > 7`, cleared against
the denominator) is deleted from the table and reported as a miss;
otherwise the stored row is rehydrated with `processingTime = 0`.
Returns the lookup result together with the (possibly pruned) table. -/
def getCachedContent (table : List LandingPageRow) (now : Int) (url : String) :
    Option ScrapedContent × List LandingPageRow :=
  match table.find? (fun r => r.url == url) with
  | none => (none, table)
  | some row =>
    if decide (now - row.createdAt > 7 * msPerDay) then
      (none, table.filter (fun r => !(r.url == url)))
    else
      (some
        { url := row.url
          title := row.title.getD ("")
          content := row.content
          success := true
          error := none
          metadata :=
            { description := match row.metadata with
                | some m => m.description
                | none => none
              keywords := match row.metadata with
                | some m => m.keywords
                | none => none
              ogTitle := match row.metadata with
                | some m => m.ogTitle
                | none => none
              ogDescription := match row.metadata with
                | some m => m.ogDescription
                | none => none
              scrapedAt := match row.metadata with
                | some m => m.scrapedAt
                | none => isoRender row.createdAt
              processingTime := 0
              method := ("cheerio")
              contentLength := row.content.length } },
       table)

/-- `WebScraperService.cacheContent`: upsert by URL — update the stored
title/content/metadata when a row for the URL exists, insert a fresh row
otherwise. -/
def cacheContent (table : List LandingPageRow) (now : Int) (newId : String)
    (scrapedContent : ScrapedContent) : List LandingPageRow :=
  match table.find? (fun r => r.url == scrapedContent.url) with
  | some _ =>
    table.map (fun r =>
      if r.url == scrapedContent.url then
        { r with
           title := some scrapedContent.title
           content := scrapedContent.content
           metadata := some scrapedContent.metadata
           updatedAt := now }
      else r)
  | none =>
    table ++
      [{ id := newId
         url := scrapedContent.url
         title := some scrapedContent.title
         content := scrapedContent.content
         metadata := some scrapedContent.metadata
         createdAt := now
         updatedAt := now }]

/-- `WebScraperService.cleanupCache`: the source computes a cutoff
`maxAgeInDays` days in the past but then deletes with
`eq(landingPageCache.createdAt, cutoffDate)` — an equality test, so only
rows whose `createdAt` is exactly the cutoff instant are removed. -/
def cleanupCache (table : List LandingPageRow) (now maxAgeInDays : Int) :
    List LandingPageRow × Nat :=
  let cutoffDate := now - maxAgeInDays * msPerDay
  (table.filter (fun r => !(r.createdAt == cutoffDate)),
   (table.filter (fun r => r.createdAt == cutoffDate)).length)

/-! ## Prompt Template Engine
(`PromptTemplateService`, prompt-template-service.ts) -/

/-- One `PromptSection` of a stored template. -/
structure PromptSection where
  id : String
  name : String
  content : String
  editable : Bool
  required : Bool
  order : Int
deriving DecidableEq, Repr

/-- The `template` JSON column of a `PromptTemplate` row. -/
structure TemplateBody where
  platform : String
  systemPrompt : String
  sections : List PromptSection
deriving DecidableEq, Repr

/-- A `PromptTemplate` as the service consumes it. -/
structure PromptTemplate where
  id : String
  userId : String
  name : String
  promptType : String
  isDefault : Bool
  template : TemplateBody
deriving DecidableEq, Repr

/-- The context argument of `buildPromptFromTemplate`. -/
structure PromptContext where
  projectName : String
  assetInterpretations : List String
  landingPageContent : List String
  variationCount : Nat
  variationType : Option String
deriving DecidableEq, Repr

/-- JS `x || dflt` on an optional string: `undefined` and the empty
string are both falsy and fall through to the default. -/
def jsOrElse (x : Option String) (dflt : String) : String :=
  match x with
  | none => dflt
  | some s => if s == ("") then dflt else s

/-- `items.map((x, i) => tag + (i+1) + ": " + x).join("\n")` — the
numbered-list renderings used for `{assetInterpretations}` (tag
`"Asset "`) and `{landingPageContent}` (tag `"Page "`). -/
def numberedLines (tag : String) (items : List String) : String :=
  String.intercalate ("\n") (items.enum.map (fun p => tag ++ natToStr (p.1 + 1) ++ (": ") ++ p.2))

/-- The per-section placeholder substitution performed inside
`buildPromptFromTemplate`: the three unconditional global replaces,
then the two `includes`-guarded replaces with their empty-context
sentinel strings. -/
def substituteSection (c : PromptContext) (content : String) : String :=
  let s1 := replaceAllStr ("{projectName}") c.projectName content
  let s2 := replaceAllStr ("{variationCount}") (natToStr c.variationCount) s1
  let s3 := replaceAllStr ("{variationType}") (jsOrElse c.variationType ("benefits")) s2
  let s4 :=
    if strContainsB s3 ("{assetInterpretations}") then
      if c.assetInterpretations.length > 0 then
        replaceAllStr ("{assetInterpretations}")
          (numberedLines ("Asset ") c.assetInterpretations) s3
      else
        replaceAllStr ("{assetInterpretations}") ("No assets provided.") s3
    else s3
  let s5 :=
    if strContainsB s4 ("{landingPageContent}") then
      if c.landingPageContent.length > 0 then
        replaceAllStr ("{landingPageContent}")
          (numberedLines ("Page ") c.landingPageContent) s4
      else
        replaceAllStr ("{landingPageContent}") ("No landing page content provided.") s4
    else s4
  s5

/-- The comparison put to `Array.prototype.sort` —
`(a, b) => a.order - b.order`, i.e. ascending `order`. -/
def orderLe (a b : PromptSection) : Prop := a.order ≤ b.order

instance : DecidableRel orderLe := fun a b => inferInstanceAs (Decidable (a.order ≤ b.order))

instance : IsTotal PromptSection orderLe := ⟨fun a b => Int.le_total a.order b.order⟩

instance : IsTrans PromptSection orderLe := ⟨fun _ _ _ h h2 => le_trans h h2⟩

/-- `[...sections].sort((a, b) => a.order - b.order)`: ECMAScript sort
is stable for a consistent comparator, so it is embedded as a stable
insertion sort. -/
def sortSections (l : List PromptSection) : List PromptSection :=
  List.insertionSort orderLe l

/-- `PromptTemplateService.buildPromptFromTemplate`: the system prompt,
then each substituted section in ascending `order`, every part followed
by a blank line, and the accumulated prompt trimmed at the end. -/
def buildPromptFromTemplate (t : PromptTemplate) (c : PromptContext) : String :=
  let finalPrompt := t.template.systemPrompt ++ ("\n\n")
  let sortedSections := sortSections t.template.sections
  strTrim (sortedSections.foldl (fun acc s => acc ++ substituteSection c s.content ++ ("\n\n")) finalPrompt)

/-- Modelled from the spec (for comparison with `substituteSection`,
which is the source translation): placeholder substitution described as
five unconditional global textual replaces — `{projectName}`,
`{variationCount}`, `{variationType}` (default `"benefits"`),
`{assetInterpretations}` (numbered `"Asset N: …"` list or the
`"No assets provided."` sentinel) and `{landingPageContent}` (numbered
`"Page N: …"` list or the `"No landing page content provided."`
sentinel). -/
def substituteSectionSpec (c : PromptContext) (content : String) : String :=
  let assetText :=
    if c.assetInterpretations.length > 0 then
      numberedLines ("Asset ") c.assetInterpretations
    else ("No assets provided.")
  let pageText :=
    if c.landingPageContent.length > 0 then
      numberedLines ("Page ") c.landingPageContent
    else ("No landing page content provided.")
  replaceAllStr ("{landingPageContent}") pageText
    (replaceAllStr ("{assetInterpretations}") assetText
      (replaceAllStr ("{variationType}") (jsOrElse c.variationType ("benefits"))
        (replaceAllStr ("{variationCount}") (natToStr c.variationCount)
          (replaceAllStr ("{projectName}") c.projectName content))))

/-- No occurrence of any of the five known placeholders in `content`
(every `{…}` token in such a content string is an unknown one). -/
def noKnownPlaceholder (content : String) : Prop :=
  strContainsB content ("{projectName}") = false ∧
  strContainsB content ("{variationCount}") = false ∧
  strContainsB content ("{variationType}") = false ∧
  strContainsB content ("{assetInterpretations}") = false ∧
  strContainsB content ("{landingPageContent}") = false

/-! ## Project status machine (`adCopyRouter.generateAdCopy`,
src/unnamed/part_000) -/

/-- The `status` column of `ad_copy_project`. -/
inductive ProjStatus where
  | draft
  | processing
  | completed
  | failed
deriving DecidableEq, Repr

/-- The slice of an `ad_copy_project` row the status machine touches. -/
structure ProjectRow where
  id : String
  userId : String
  status : ProjStatus
deriving DecidableEq, Repr

/-- `db.update(adCopyProject).set({status}).where(id = pid AND userId = uid)`:
every matching row gets the new status, non-matching rows are untouched
(zero rows may match). -/
def updateProjectStatus (store : List ProjectRow) (pid uid : String)
    (st : ProjStatus) : List ProjectRow :=
  store.map (fun p => if p.id == pid && p.userId == uid then { p with status := st } else p)

/-- Select the caller's project (`id = pid AND userId = uid`, limit 1). -/
def findProject (store : List ProjectRow) (pid uid : String) : Option ProjectRow :=
  store.find? (fun p => p.id == pid && p.userId == uid)

/-- Outcome of the generation stage as seen by the router:
`ctorFailure` — `new AdCopyGenerator()` threw (missing API key);
`finished ok err` — `generateForProject` returned (it catches all of its
own errors and never rejects), with its `success` flag and the error
text it reports on failure. -/
inductive GenerateOutcome where
  | ctorFailure (msg : String)
  | finished (ok : Bool) (err : String)
deriving DecidableEq, Repr

/-- Did the generation stage report success? -/
def isSuccessOutcome : GenerateOutcome → Bool
  | GenerateOutcome.finished true _ => true
  | _ => false

/-- `adCopyRouter.generateAdCopy`: set the project `processing`; run the
generator; set `completed` or `failed` from `result.success`; a failed
result is re-thrown inside the `try`, so the `catch` block sets `failed`
once more and rethrows.  Returns the final store, the sequence of status
values written for this project, and the mutation's outcome. -/
def generateAdCopy (store : List ProjectRow) (pid uid : String)
    (g : GenerateOutcome) : List ProjectRow × List ProjStatus × Except String Unit :=
  let s1 := updateProjectStatus store pid uid ProjStatus.processing
  match g with
  | GenerateOutcome.ctorFailure msg =>
    (updateProjectStatus s1 pid uid ProjStatus.failed,
     [ProjStatus.processing, ProjStatus.failed],
     Except.error (("Ad copy generation failed: ") ++ msg))
  | GenerateOutcome.finished ok err =>
    if ok then
      (updateProjectStatus s1 pid uid ProjStatus.completed,
       [ProjStatus.processing, ProjStatus.completed],
       Except.ok ())
    else
      let s2 := updateProjectStatus s1 pid uid ProjStatus.failed
      (updateProjectStatus s2 pid uid ProjStatus.failed,
       [ProjStatus.processing, ProjStatus.failed, ProjStatus.failed],
       Except.error (("Ad copy generation failed: ") ++ err))

/-! ## Cloud File Gateway (`DropboxService`, src/unnamed/part_003) -/

/-- The slice of an `integration` row the gateway reads and writes. -/
structure Integration where
  id : String
  userId : String
  provider : String
  isActive : Bool
  accessToken : String
  refreshToken : Option String
  tokenExpiresAt : Option Int
deriving DecidableEq, Repr

/-- A Dropbox file entry as returned by the listing endpoint. -/
structure DropboxFile where
  id : String
  name : String
  pathLower : String
  size : Nat
deriving DecidableEq, Repr

/-- The token-refresh endpoint's observable behaviour for this call:
HTTP success flag and, when parsed, the `access_token` and optional
`expires_in` (seconds) fields of its JSON body. -/
structure RefreshResp where
  ok : Bool
  accessToken : String
  expiresIn : Option Int
deriving DecidableEq, Repr

/-- One response of the paginated `list_folder`/`continue` endpoint:
HTTP success flag and status, plus `entries`, `cursor` and `has_more`
on success. -/
structure ListPageResp where
  ok : Bool
  status : Nat
  entries : List DropboxFile
  cursor : Option String
  hasMore : Bool
deriving DecidableEq, Repr

/-- `DropboxService.getActiveIntegration`: first row with the caller's
user id, provider `"dropbox"` and `isActive`, or a thrown error. -/
def getActiveIntegration (store : List Integration) (userId : String) :
    Except String Integration :=
  match store.find? (fun r => r.userId == userId && r.provider == ("dropbox") && r.isActive) with
  | some r => Except.ok r
  | none => Except.error ("No active Dropbox integration found")

/-- The refresh trigger of `refreshTokenIfNeeded`: no stored expiry, or
an expiry less than five minutes (`5 * 60 * 1000` ms) in the future. -/
def needsRefresh (now : Int) (cred : Integration) : Bool :=
  match cred.tokenExpiresAt with
  | none => true
  | some e => decide (e - now < 5 * 60 * 1000)

/-- The expiry written back on refresh:
`tokenData.expires_in ? new Date(Date.now() + expires_in * 1000) : null`
(`0` is falsy in JS and also maps to `null`). -/
def refreshedExpiry (now : Int) (resp : RefreshResp) : Option Int :=
  match resp.expiresIn with
  | none => none
  | some s => if s == 0 then none else some (now + s * 1000)

/-- `DropboxService.refreshTokenIfNeeded`: when the trigger fires, fail
without a stored refresh token; fail on a non-2xx refresh response;
otherwise write the new access token and the expiry
`now + expires_in * 1000` (or `null` when `expires_in` is absent or `0`,
both falsy) back to the integration row and return the new token.
When the trigger does not fire, return the stored token unchanged.
The result carries the token to use, the updated store, and the number
of refresh calls made (0 or 1). -/
def refreshTokenIfNeeded (now : Int) (resp : RefreshResp)
    (store : List Integration) (cred : Integration) :
    Except String (String × List Integration × Nat) :=
  if needsRefresh now cred then
    match cred.refreshToken with
    | none => Except.error ("No refresh token available")
    | some _ =>
      if resp.ok then
        let newExpiry := refreshedExpiry now resp
        Except.ok (resp.accessToken,
          store.map (fun r =>
            if r.id == cred.id then
              { r with accessToken := resp.accessToken, tokenExpiresAt := newExpiry }
            else r),
          1)
      else Except.error ("Failed to refresh Dropbox token")
  else
    Except.ok (cred.accessToken, store, 0)

/-- File-extension allow-list filter applied to every listing page
(`path.extname(file.name).toLowerCase()` against the image and video
extension lists). -/
def extnameLower (name : String) : String :=
  let rev := name.data.reverse
  match rev.findIdx? (fun c => c == ('.' : Char)) with
  | none => ("")
  | some i =>
    if i + 1 == rev.length then ("")
    else String.mk (((rev.take (i + 1)).reverse).map Char.toLower)

/-- The fixed media extension allow-list of `listFiles`. -/
def mediaExtensions : List String :=
  [(".jpg"), (".jpeg"), (".png"), (".gif"), (".bmp"), (".webp"),
   (".mp4"), (".mov"), (".avi"), (".mkv"), (".webm"), (".m4v")]

/-- `data.entries.filter(...)` of one listing page. -/
def filterMediaFiles (entries : List DropboxFile) : List DropboxFile :=
  entries.filter (fun f => mediaExtensions.contains (extnameLower f.name))

/-- The `while (hasMore)` pagination loop of `listFiles`, consuming the
endpoint responses in call order.  The interaction is finite, so the
responses are a list; running out of responses while `has_more` is set
cannot be observed on a faithful trace. -/
def listFilesLoop : List ListPageResp → List DropboxFile → Except String (List DropboxFile)
  | [], acc => Except.ok acc
  | page :: restPages, acc =>
    if page.ok then
      let acc2 := acc ++ filterMediaFiles page.entries
      if page.hasMore then listFilesLoop restPages acc2
      else Except.ok acc2
    else Except.error (("Failed to list Dropbox files: ") ++ natToStr page.status)

/-- `DropboxService.listFiles`: resolve the active integration, refresh
the token if needed, then run the pagination loop with the resulting
bearer token.  The success payload records the collected files, the
store after any token write-back, the number of refresh calls, and the
bearer token the listing calls used. -/
def listFiles (now : Int) (resp : RefreshResp) (pages : List ListPageResp)
    (store : List Integration) (userId : String) :
    Except String (List DropboxFile × List Integration × Nat × String) :=
  match getActiveIntegration store userId with
  | Except.error e => Except.error e
  | Except.ok cred =>
    match refreshTokenIfNeeded now resp store cred with
    | Except.error e => Except.error e
    | Except.ok (accessToken, store2, refreshCalls) =>
      match listFilesLoop pages [] with
      | Except.error e => Except.error e
      | Except.ok files => Except.ok (files, store2, refreshCalls, accessToken)

/-! ## Asset Interpreter and speech service
(`AssetInterpreter`, `VideoProcessor`, src/unnamed/part_005;
`GoogleSpeechService`, web-scraper.ts) -/

/-- One alternative of one recognition result of the speech API. -/
structure SpeechAlt where
  transcript : String
  confidence : Int
deriving DecidableEq, Repr

/-- One recognition result (its list of alternatives). -/
structure SpeechRecResult where
  alternatives : List SpeechAlt
deriving DecidableEq, Repr

/-- The parsed response of a `recognize`/`longRunningRecognize` call. -/
structure SpeechAPIResponse where
  results : List SpeechRecResult
deriving DecidableEq, Repr

/-- The `SpeechTranscriptionResult` shape returned by the service. -/
structure SpeechTranscriptionResult where
  transcript : String
  confidence : Int
  duration : Int
  language : String
  success : Bool
  error : Option String
deriving DecidableEq, Repr

/-- The shared response handling of `transcribeAudio` and
`transcribeShortAudio`: an empty `results` list is reported as a
failure (`"No speech detected in audio"`); otherwise the first
alternative of every result is concatenated (plus a trailing space
each) and trimmed, and confidences are averaged.  Wall-clock metadata
is not modelled; the float average is modelled as integer division,
which no claim inspects. -/
def processSpeechResponse (languageCode : String) (resp : SpeechAPIResponse) :
    SpeechTranscriptionResult :=
  if resp.results.isEmpty then
    { transcript := ("")
      confidence := 0
      duration := 0
      language := languageCode
      success := false
      error := some ("No speech detected in audio") }
  else
    let step := resp.results.foldl
      (fun (acc : String × Int × Int) r =>
        match r.alternatives.head? with
        | some alt => (acc.1 ++ alt.transcript ++ (" "), acc.2.1 + alt.confidence, acc.2.2 + 1)
        | none => acc)
      (("") , 0, 0)
    let averageConfidence := if step.2.2 > 0 then step.2.1 / step.2.2 else 0
    { transcript := strTrim step.1
      confidence := averageConfidence
      duration := 0
      language := languageCode
      success := true
      error := none }

/-- `GoogleSpeechService.transcribeAudioAuto`: synchronous recognition
for clips shorter than 60 seconds, the long-running path otherwise.
`shortResp`/`longResp` are the responses the respective endpoint would
give to this audio. -/
def transcribeAudioAuto (shortResp longResp : SpeechAPIResponse)
    (duration : Int) (languageCode : String) : SpeechTranscriptionResult :=
  if duration < 60 then processSpeechResponse languageCode shortResp
  else processSpeechResponse languageCode longResp

/-- `VideoProcessor.extractAudio`'s observable outcome.  Durations are
whole seconds here, making the `Math.round` of the fallback text the
identity; no claim depends on fractional durations. -/
structure VideoProcessingResult where
  audioPath : String
  duration : Int
  success : Bool
  error : Option String
deriving DecidableEq, Repr

/-- `GeminiVisionService.analyzeMarketingImage`'s observable outcome. -/
structure ImageVisionResult where
  interpretation : String
  confidence : Int
  success : Bool
  error : Option String
deriving DecidableEq, Repr

/-- The result record produced by `AssetInterpreter` for one asset
(`metadata.processingTime`, wall-clock, is not modelled). -/
structure AssetInterpretationResult where
  dropboxFileId : String
  fileType : String
  interpretation : String
  processingMethod : String
  success : Bool
  error : Option String
  confidence : Option Int
  duration : Option Int
  fromCache : Bool
deriving DecidableEq, Repr

/-- `AssetInterpreter.enhanceVideoInterpretation`: an empty or
whitespace-only transcript yields the descriptive no-speech fallback
(with the file name and the rounded duration), otherwise the transcript
is framed with the same file context. -/
def enhanceVideoInterpretation (transcript fileName : String) (duration : Int) : String :=
  if (strTrim transcript).length == 0 then
    ("Video file \"") ++ fileName ++ ("\" (") ++ intToStr duration ++
      ("s duration) contains no detectable speech or audio content. This appears to be a silent video or contains only background music/sounds.")
  else
    ("Video content from \"") ++ fileName ++ ("\" (") ++ intToStr duration ++
      ("s duration): ") ++ strTrim transcript

/-- `AssetInterpreter.interpretImage` given the vision call outcome. -/
def interpretImage (dropboxFileId fileName : String) (vision : ImageVisionResult) :
    AssetInterpretationResult :=
  if vision.success then
    { dropboxFileId := dropboxFileId
      fileType := ("image")
      interpretation := vision.interpretation
      processingMethod := ("gemini_vision")
      success := true
      error := none
      confidence := some vision.confidence
      duration := none
      fromCache := false }
  else
    { dropboxFileId := dropboxFileId
      fileType := ("image")
      interpretation := ("")
      processingMethod := ("gemini_vision")
      success := false
      error := vision.error
      confidence := none
      duration := none
      fromCache := false }

/-- `AssetInterpreter.interpretVideo` given the extraction outcome and
the speech endpoint responses: failed extraction fails the asset; a
failed transcription (including the empty-results
`"No speech detected in audio"` report) fails the asset; a successful
transcription is enhanced into the final interpretation. -/
def interpretVideo (dropboxFileId fileName : String)
    (videoResult : VideoProcessingResult)
    (shortResp longResp : SpeechAPIResponse) : AssetInterpretationResult :=
  if !videoResult.success then
    { dropboxFileId := dropboxFileId
      fileType := ("video")
      interpretation := ("")
      processingMethod := ("speech_to_text")
      success := false
      error := some (("Audio extraction failed: ") ++ (videoResult.error.getD ("")))
      confidence := none
      duration := some videoResult.duration
      fromCache := false }
  else
    let speechResult := transcribeAudioAuto shortResp longResp videoResult.duration ("en-US")
    if !speechResult.success then
      { dropboxFileId := dropboxFileId
        fileType := ("video")
        interpretation := ("")
        processingMethod := ("speech_to_text")
        success := false
        error := speechResult.error
        confidence := none
        duration := some videoResult.duration
        fromCache := false }
    else
      { dropboxFileId := dropboxFileId
        fileType := ("video")
        interpretation := enhanceVideoInterpretation speechResult.transcript fileName videoResult.duration
        processingMethod := ("speech_to_text")
        success := true
        error := none
        confidence := some speechResult.confidence
        duration := some videoResult.duration
        fromCache := false }

/-- `AssetInterpreter.interpretAsset`: serve a fresh cache entry
directly (`fromCache = true`, no external call); otherwise dispatch on
the file type, and write a successful result through to the
interpretation cache.  Returns the result and the cache table after the
call. -/
def interpretAsset (table : List AssetInterpRow) (now : Int) (newCacheId : String)
    (dropboxFileId fileType fileName : String)
    (vision : ImageVisionResult)
    (videoResult : VideoProcessingResult)
    (shortResp longResp : SpeechAPIResponse) :
    AssetInterpretationResult × List AssetInterpRow :=
  let runFresh : AssetInterpretationResult :=
    if fileType == ("image") then interpretImage dropboxFileId fileName vision
    else interpretVideo dropboxFileId fileName videoResult shortResp longResp
  let afterRun : AssetInterpretationResult × List AssetInterpRow :=
    if runFresh.success then
      (runFresh,
       (cacheInterpretation table now newCacheId dropboxFileId fileType
         runFresh.interpretation runFresh.processingMethod
         { confidence := runFresh.confidence
           duration := runFresh.duration
           processingTime := 0
           fileName := some fileName }).2)
    else (runFresh, table)
  match getCachedInterpretation table dropboxFileId with
  | some cached =>
    if isInterpretationFresh table now dropboxFileId 30 then
      ({ dropboxFileId := dropboxFileId
         fileType := fileType
         interpretation := cached.interpretation
         processingMethod := cached.processingMethod
         success := true
         error := none
         confidence := cached.metadata.confidence
         duration := cached.metadata.duration
         fromCache := true }, table)
    else afterRun
  | none => afterRun

/-- One asset of an `interpretAssets` batch. -/
structure AssetSpec where
  dropboxFileId : String
  filePath : String
  fileType : String
  fileName : String
deriving DecidableEq, Repr

/-- The failure record the batch loop's `catch` block pushes when the
`interpretAsset` call itself rejects. -/
def batchFailureResult (a : AssetSpec) (e : String) : AssetInterpretationResult :=
  { dropboxFileId := a.dropboxFileId
    fileType := a.fileType
    interpretation := ("")
    processingMethod := ("error")
    success := false
    error := some (("Batch processing failed: ") ++ e)
    confidence := none
    duration := none
    fromCache := false }

/-- The sequential `for … of` loop of `interpretAssets`, carrying the
position of the current asset.  `callOutcome i a` is the observable
outcome of awaiting `interpretAsset` for the `i`-th asset: a result, or
a rejection with an error message. -/
def interpretAssetsAux (callOutcome : Nat → AssetSpec → Except String AssetInterpretationResult) :
    Nat → List AssetSpec → List AssetInterpretationResult
  | _, [] => []
  | i, a :: rest =>
    (match callOutcome i a with
     | Except.ok r => r
     | Except.error e => batchFailureResult a e) :: interpretAssetsAux callOutcome (i + 1) rest

/-- `AssetInterpreter.interpretAssets`: process the batch strictly
sequentially, pushing one result per asset and converting a per-asset
rejection into a failure record instead of aborting the loop. -/
def interpretAssets (callOutcome : Nat → AssetSpec → Except String AssetInterpretationResult)
    (assets : List AssetSpec) : List AssetInterpretationResult :=
  interpretAssetsAux callOutcome 0 assets

/-! ## Ad Copy Generator output parsing
(`AdCopyGenerator.parseGeneratedContent`, ad-copy-generator.ts) -/

/-- One structured variation. -/
structure AdCopyVariation where
  variationNumber : Nat
  headline : String
  body : String
  callToAction : String
deriving DecidableEq, Repr

/-- Case-insensitive prefix test (the `/i` flag on the literal parts of
the parsing regexes). -/
def ciIsPrefixOf (pat s : List Char) : Bool :=
  List.isPrefixOf (pat.map Char.toLower) ((s.take pat.length).map Char.toLower)

/-- Match the split pattern `/VARIATION \d+:/i` at the head of `s`,
returning the matched length: the literal (case-insensitively), then a
maximal nonempty digit run, then a colon. -/
def matchVariationMarker (s : List Char) : Option Nat :=
  if ciIsPrefixOf (("VARIATION ").data) s then
    let rest := s.drop 10
    let ds := rest.takeWhile Char.isDigit
    if ds.isEmpty then none
    else
      match (rest.drop ds.length).head? with
      | some c => if c == (':' : Char) then some (10 + ds.length + 1) else none
      | none => none
  else none

/-- `generatedText.split(/VARIATION \d+:/i)`: cut the text at every
marker occurrence (fuel-structured scan; `fuel = length` suffices). -/
def splitVariationAux : Nat → List Char → List Char → List (List Char)
  | 0, accRev, s => [accRev.reverse ++ s]
  | _ + 1, accRev, [] => [accRev.reverse]
  | fuel + 1, accRev, c :: rest =>
    match matchVariationMarker (c :: rest) with
    | some n => accRev.reverse :: splitVariationAux fuel [] ((c :: rest).drop n)
    | none => splitVariationAux fuel (c :: accRev) rest

/-- The variation blocks: the split segments minus everything before
the first marker (`.split(...).slice(1)`). -/
def splitVariationBlocks (s : List Char) : List (List Char) :=
  (splitVariationAux (s.length + 1) [] s).drop 1

/-- The lookahead `(?=\n|STOP|$)` of the field regexes: end of text, a
newline, or one of the stop literals (case-insensitively). -/
def lookaheadHolds (stops : List (List Char)) (l : List Char) : Bool :=
  match l with
  | [] => true
  | c :: _ => c == ('\n' : Char) || stops.any (fun p => ciIsPrefixOf p l)

/-- The lazy `(.+?)` loop: having consumed at least one character,
extend one non-newline character at a time until the lookahead holds.
(Once one character is consumed this always terminates successfully —
the lookahead holds at end of text and before a newline.) -/
def lazyExtend (stops : List (List Char)) : List Char → List Char → List Char
  | accRev, [] => accRev.reverse
  | accRev, c :: cs =>
    if lookaheadHolds stops (c :: cs) then accRev.reverse
    else lazyExtend stops (c :: accRev) cs

/-- Try `(.+?)(?=…)` at exactly this position: the first captured
character must exist and may not be a newline. -/
def captureHere (stops : List (List Char)) : List Char → Option (List Char)
  | [] => none
  | c :: cs => if c == ('\n' : Char) then none else some (lazyExtend stops [c] cs)

/-- Backtracking over the greedy `\s*`: try the capture after `k`
skipped whitespace characters, retreating one character at a time
(longest skip first, as the greedy quantifier does). -/
def tryCaptureAt (stops : List (List Char)) (rest : List Char) : Nat → Option (List Char)
  | 0 => captureHere stops rest
  | k + 1 =>
    match captureHere stops (rest.drop (k + 1)) with
    | some r => some r
    | none => tryCaptureAt stops rest k

/-- `block.match(/LABEL:\s*(.+?)(?=\n|STOP|$)/i)`: leftmost scan — at
each position where the label matches case-insensitively, attempt
`\s*(.+?)(?=…)` on the remainder; on failure resume the scan one
character further (fuel-structured; `fuel = length + 1` suffices). -/
def scanLabel (label : List Char) (stops : List (List Char)) :
    Nat → List Char → Option (List Char)
  | 0, _ => none
  | _ + 1, [] => none
  | fuel + 1, c :: rest =>
    match
      (if ciIsPrefixOf label (c :: rest) then
        let afterLabel := (c :: rest).drop label.length
        tryCaptureAt stops afterLabel (afterLabel.takeWhile Char.isWhitespace).length
      else none) with
    | some r => some r
    | none => scanLabel label stops fuel rest

/-- `AdCopyGenerator.truncateText`: texts within the limit pass
through; longer ones are cut to `maxLength - 3` characters plus an
ellipsis marker. -/
def truncateText (text : String) (maxLength : Nat) : String :=
  if text.length ≤ maxLength then text
  else String.mk (text.data.take (maxLength - 3)) ++ ("...")

/-- Field extraction and assembly for the `i`-th variation block:
matched fields are trimmed, missing fields fall back to deterministic
`"Headline i+1"`-style placeholders, and every field is truncated to
its limit. -/
def parseVariationBlock (block : List Char) (i : Nat) : AdCopyVariation :=
  let b := trimChars block
  let headline :=
    match scanLabel (("HEADLINE:").data) [(("BODY:").data)] (b.length + 1) b with
    | some cap => strTrim (String.mk cap)
    | none => ("Headline ") ++ natToStr (i + 1)
  let body :=
    match scanLabel (("BODY:").data) [(("CTA:").data)] (b.length + 1) b with
    | some cap => strTrim (String.mk cap)
    | none => ("Body text ") ++ natToStr (i + 1)
  let callToAction :=
    match scanLabel (("CTA:").data) [(("VARIATION").data)] (b.length + 1) b with
    | some cap => strTrim (String.mk cap)
    | none => ("CTA ") ++ natToStr (i + 1)
  { variationNumber := i + 1
    headline := truncateText headline 60
    body := truncateText body 150
    callToAction := truncateText callToAction 30 }

/-- The fallback variation pushed by the `while` padding loop when the
model produced fewer blocks than requested (`k` is the zero-based
position, so `variationNumber = k + 1`). -/
def fallbackVariation (k : Nat) : AdCopyVariation :=
  { variationNumber := k + 1
    headline := ("Compelling Headline ") ++ natToStr (k + 1)
    body := ("Engaging body text that drives action and converts visitors into customers ") ++ natToStr (k + 1)
    callToAction := ("Act Now ") ++ natToStr (k + 1) }

/-- `AdCopyGenerator.parseGeneratedContent`: parse at most
`expectedCount` variation blocks in order, then pad with fallback
variations until `expectedCount` results exist. -/
def parseGeneratedContent (generatedText : String) (expectedCount : Nat) :
    List AdCopyVariation :=
  let blocks := splitVariationBlocks generatedText.data
  let parsed := ((blocks.take expectedCount).enum).map (fun p => parseVariationBlock p.2 p.1)
  parsed ++ (List.range (expectedCount - parsed.length)).map (fun j => fallbackVariation (parsed.length + j))

/-- Modelled from the spec (for comparison with the accumulation loop
of `buildPromptFromTemplate`): the parts of the prompt joined with a
separator — `joinSep sep [p1, …, pn] = p1 ++ sep ++ … ++ sep ++ pn`. -/
def joinSep (sep : String) : List String → String
  | [] => ("")
  | x :: xs => xs.foldl (fun acc p => acc ++ sep ++ p) x

/-! ## Concrete fixtures used by the evaluation theorems -/

/-- A concrete scraped result for `https://x.example`. -/
def sampleScraped1 : ScrapedContent :=
  { url := ("https://x.example")
    title := ("First title")
    content := ("first content")
    success := true
    error := none
    metadata :=
      { description := some ("d1")
        keywords := none
        ogTitle := none
        ogDescription := none
        scrapedAt := ("t1")
        processingTime := 5
        method := ("cheerio")
        contentLength := 13 } }

/-- A second scraped result for the same URL with different values. -/
def sampleScraped2 : ScrapedContent :=
  { url := ("https://x.example")
    title := ("Second title")
    content := ("second content")
    success := true
    error := none
    metadata :=
      { description := some ("d2")
        keywords := none
        ogTitle := none
        ogDescription := none
        scrapedAt := ("t2")
        processingTime := 9
        method := ("puppeteer")
        contentLength := 14 } }

/-- A concrete landing-page cache row for boundary tests. -/
def sampleLandingRow (createdAt : Int) : LandingPageRow :=
  { id := ("row1")
    url := ("https://x.example")
    title := some ("First title")
    content := ("first content")
    metadata := none
    createdAt := createdAt
    updatedAt := createdAt }

/-- A concrete interpretation-cache row for boundary tests. -/
def sampleInterpRow (updatedAt : Int) : AssetInterpRow :=
  { id := ("row2")
    dropboxFileId := ("file-1")
    fileType := ("image")
    interpretation := ("cached text")
    processingMethod := ("gemini_vision")
    metadata := CacheMeta.empty
    createdAt := updatedAt
    updatedAt := updatedAt }

/-! ## Supporting lemmas -/

theorem find?_eq_head?_filter {α : Type} (p : α → Bool) (l : List α) :
    l.find? p = (l.filter p).head? := by
  induction l with
  | nil => rfl
  | cons a t ih =>
    rw [List.find?_cons, List.filter_cons]
    by_cases h : p a = true
    · rw [if_pos h, h]
      rfl
    · rw [if_neg h]
      simp only [Bool.not_eq_true] at h
      rw [h]
      exact ih

theorem filter_pos_map_ite {α : Type} (p : α → Bool) (f : α → α)
    (hp : ∀ a, p (f a) = p a) (l : List α) :
    (l.map (fun a => if p a then f a else a)).filter p = (l.filter p).map f := by
  induction l with
  | nil => rfl
  | cons a t ih =>
    by_cases h : p a = true
    · simp [h, hp, List.filter_cons, ih]
    · simp only [Bool.not_eq_true] at h
      simp [h, List.filter_cons, ih]

theorem filter_neg_map_ite {α : Type} (p : α → Bool) (f : α → α)
    (hp : ∀ a, p (f a) = p a) (l : List α) :
    (l.map (fun a => if p a then f a else a)).filter (fun a => !(p a)) =
      l.filter (fun a => !(p a)) := by
  induction l with
  | nil => rfl
  | cons a t ih =>
    by_cases h : p a = true
    · simp [h, hp, List.filter_cons, ih]
    · simp only [Bool.not_eq_true] at h
      simp [h, List.filter_cons, ih]

theorem cacheInterpretation_upsert (table : List AssetInterpRow) (now : Int)
    (newId fid ft i m : String) (meta : CacheMeta)
    (hkey : (table.filter (fun r => r.dropboxFileId == fid)).length ≤ 1) :
    ∃ r : AssetInterpRow,
      (cacheInterpretation table now newId fid ft i m meta).2.filter
          (fun x => x.dropboxFileId == fid) = [r] ∧
      r.dropboxFileId = fid ∧ r.interpretation = i ∧ r.processingMethod = m ∧
      r.metadata = meta ∧ r.updatedAt = now ∧
      (cacheInterpretation table now newId fid ft i m meta).2.filter
          (fun x => !(x.dropboxFileId == fid)) =
        table.filter (fun x => !(x.dropboxFileId == fid)) := by
  have hfind : getCachedInterpretation table fid =
      (table.filter (fun x => x.dropboxFileId == fid)).head? :=
    find?_eq_head?_filter _ _
  cases hf : table.filter (fun x => x.dropboxFileId == fid) with
  | nil =>
    have hnone : getCachedInterpretation table fid = none := by rw [hfind, hf]; rfl
    refine ⟨{ id := newId
              dropboxFileId := fid
              fileType := ft
              interpretation := i
              processingMethod := m
              metadata := meta
              createdAt := now
              updatedAt := now },
            ?_, rfl, rfl, rfl, rfl, rfl, ?_⟩
    · simp only [cacheInterpretation, hnone, List.filter_append, hf]
      simp
    · simp only [cacheInterpretation, hnone, List.filter_append]
      simp
  | cons r0 rest =>
    have hsome : getCachedInterpretation table fid = some r0 := by rw [hfind, hf]; rfl
    have hrest : rest = [] := by
      rw [hf] at hkey
      cases rest with
      | nil => rfl
      | cons x xs => simp at hkey
    subst hrest
    refine ⟨{ r0 with
              interpretation := i
              processingMethod := m
              metadata := meta
              updatedAt := now },
            ?_, ?_, rfl, rfl, rfl, rfl, ?_⟩
    · calc (cacheInterpretation table now newId fid ft i m meta).2.filter
            (fun x => x.dropboxFileId == fid)
          = (table.filter (fun x => x.dropboxFileId == fid)).map
              (fun r => { r with
                          interpretation := i
                          processingMethod := m
                          metadata := meta
                          updatedAt := now }) := by
            simp only [cacheInterpretation, hsome]
            exact filter_pos_map_ite (fun x : AssetInterpRow => x.dropboxFileId == fid)
              (fun r => { r with
                          interpretation := i
                          processingMethod := m
                          metadata := meta
                          updatedAt := now }) (fun a => rfl) table
        _ = [{ r0 with
               interpretation := i
               processingMethod := m
               metadata := meta
               updatedAt := now }] := by rw [hf]; rfl
    · have hr0 : r0 ∈ table.filter (fun x => x.dropboxFileId == fid) := by
        rw [hf]
        exact List.mem_singleton_self r0
      have := List.of_mem_filter hr0
      simpa using this
    · calc (cacheInterpretation table now newId fid ft i m meta).2.filter
            (fun x => !(x.dropboxFileId == fid))
          = table.filter (fun x => !(x.dropboxFileId == fid)) := by
            simp only [cacheInterpretation, hsome]
            exact filter_neg_map_ite (fun x : AssetInterpRow => x.dropboxFileId == fid)
              (fun r => { r with
                          interpretation := i
                          processingMethod := m
                          metadata := meta
                          updatedAt := now }) (fun a => rfl) table

theorem cacheContent_upsert (table : List LandingPageRow) (now : Int)
    (newId : String) (sc : ScrapedContent)
    (hkey : (table.filter (fun r => r.url == sc.url)).length ≤ 1) :
    ∃ r : LandingPageRow,
      (cacheContent table now newId sc).filter (fun x => x.url == sc.url) = [r] ∧
      r.url = sc.url ∧ r.title = some sc.title ∧ r.content = sc.content ∧
      r.metadata = some sc.metadata ∧ r.updatedAt = now ∧
      (cacheContent table now newId sc).filter (fun x => !(x.url == sc.url)) =
        table.filter (fun x => !(x.url == sc.url)) := by
  have hfind : table.find? (fun r => r.url == sc.url) =
      (table.filter (fun x => x.url == sc.url)).head? :=
    find?_eq_head?_filter _ _
  cases hf : table.filter (fun x => x.url == sc.url) with
  | nil =>
    have hnone : table.find? (fun r => r.url == sc.url) = none := by rw [hfind, hf]; rfl
    refine ⟨{ id := newId
              url := sc.url
              title := some sc.title
              content := sc.content
              metadata := some sc.metadata
              createdAt := now
              updatedAt := now },
            ?_, rfl, rfl, rfl, rfl, rfl, ?_⟩
    · simp only [cacheContent, hnone, List.filter_append, hf]
      simp
    · simp only [cacheContent, hnone, List.filter_append]
      simp
  | cons r0 rest =>
    have hsome : table.find? (fun r => r.url == sc.url) = some r0 := by rw [hfind, hf]; rfl
    have hrest : rest = [] := by
      rw [hf] at hkey
      cases rest with
      | nil => rfl
      | cons x xs => simp at hkey
    subst hrest
    refine ⟨{ r0 with
              title := some sc.title
              content := sc.content
              metadata := some sc.metadata
              updatedAt := now },
            ?_, ?_, rfl, rfl, rfl, rfl, ?_⟩
    · calc (cacheContent table now newId sc).filter (fun x => x.url == sc.url)
          = (table.filter (fun x => x.url == sc.url)).map
              (fun r => { r with
                          title := some sc.title
                          content := sc.content
                          metadata := some sc.metadata
                          updatedAt := now }) := by
            simp only [cacheContent, hsome]
            exact filter_pos_map_ite (fun x : LandingPageRow => x.url == sc.url)
              (fun r => { r with
                          title := some sc.title
                          content := sc.content
                          metadata := some sc.metadata
                          updatedAt := now }) (fun a => rfl) table
        _ = [{ r0 with
               title := some sc.title
               content := sc.content
               metadata := some sc.metadata
               updatedAt := now }] := by rw [hf]; rfl
    · have hr0 : r0 ∈ table.filter (fun x => x.url == sc.url) := by
        rw [hf]
        exact List.mem_singleton_self r0
      have := List.of_mem_filter hr0
      simpa using this
    · calc (cacheContent table now newId sc).filter (fun x => !(x.url == sc.url))
          = table.filter (fun x => !(x.url == sc.url)) := by
            simp only [cacheContent, hsome]
            exact filter_neg_map_ite (fun x : LandingPageRow => x.url == sc.url)
              (fun r => { r with
                          title := some sc.title
                          content := sc.content
                          metadata := some sc.metadata
                          updatedAt := now }) (fun a => rfl) table

/-! ## Claim C5 -/

/-- Claim C5 (amended): both cache writes are upserts keyed by their
unique key — two `cacheInterpretation` calls for one `dropboxFileId`
(resp. two `cacheContent` calls for one URL) leave exactly one stored
row for that key, rows for other keys untouched, with the second call's
interpretation, processing method and metadata (resp. title, content
and metadata) winning; the interpretation row's `fileType` is kept from
the first write, as the update path does not set it. -/
theorem claim_C5_cache_writes_are_upserts
    (table : List AssetInterpRow) (fid : String) (now1 now2 : Int)
    (id1 id2 ft1 ft2 i1 i2 m1 m2 : String) (meta1 meta2 : CacheMeta)
    (ltable : List LandingPageRow) (lnow1 lnow2 : Int) (lid1 lid2 : String)
    (sc1 sc2 : ScrapedContent)
    (hkey : (table.filter (fun r => r.dropboxFileId == fid)).length ≤ 1)
    (hlkey : (ltable.filter (fun r => r.url == sc2.url)).length ≤ 1)
    (hurl : sc1.url = sc2.url) :
    ((cacheInterpretation (cacheInterpretation table now1 id1 fid ft1 i1 m1 meta1).2
        now2 id2 fid ft2 i2 m2 meta2).2.filter
        (fun r => r.dropboxFileId == fid)).length = 1
    ∧ (getCachedInterpretation
        (cacheInterpretation (cacheInterpretation table now1 id1 fid ft1 i1 m1 meta1).2
          now2 id2 fid ft2 i2 m2 meta2).2 fid).map
        (fun r => (r.interpretation, r.processingMethod, r.metadata, r.updatedAt)) =
      some (i2, m2, meta2, now2)
    ∧ (cacheInterpretation (cacheInterpretation table now1 id1 fid ft1 i1 m1 meta1).2
        now2 id2 fid ft2 i2 m2 meta2).2.filter (fun r => !(r.dropboxFileId == fid)) =
      table.filter (fun r => !(r.dropboxFileId == fid))
    ∧ ((cacheContent (cacheContent ltable lnow1 lid1 sc1) lnow2 lid2 sc2).filter
        (fun r => r.url == sc2.url)).length = 1
    ∧ ((cacheContent (cacheContent ltable lnow1 lid1 sc1) lnow2 lid2 sc2).find?
        (fun r => r.url == sc2.url)).map
        (fun r => (r.title, r.content, r.metadata, r.updatedAt)) =
      some (some sc2.title, sc2.content, some sc2.metadata, lnow2)
    ∧ (cacheContent (cacheContent ltable lnow1 lid1 sc1) lnow2 lid2 sc2).filter
        (fun r => !(r.url == sc2.url)) =
      ltable.filter (fun r => !(r.url == sc2.url)) := by
  obtain ⟨r1, hr1f, _, _, _, _, _, hr1neg⟩ :=
    cacheInterpretation_upsert table now1 id1 fid ft1 i1 m1 meta1 hkey
  have hkey1 : ((cacheInterpretation table now1 id1 fid ft1 i1 m1 meta1).2.filter
      (fun r => r.dropboxFileId == fid)).length ≤ 1 := by
    rw [hr1f]
    simp
  obtain ⟨r2, hr2f, _, hr2i, hr2m, hr2meta, hr2t, hr2neg⟩ :=
    cacheInterpretation_upsert (cacheInterpretation table now1 id1 fid ft1 i1 m1 meta1).2
      now2 id2 fid ft2 i2 m2 meta2 hkey1
  obtain ⟨l1, hl1f, _, _, _, _, _, hl1neg⟩ :=
    cacheContent_upsert ltable lnow1 lid1 sc1 (by rw [hurl]; exact hlkey)
  rw [hurl] at hl1f hl1neg
  have hlkey1 : ((cacheContent ltable lnow1 lid1 sc1).filter
      (fun r => r.url == sc2.url)).length ≤ 1 := by
    rw [hl1f]
    simp
  obtain ⟨l2, hl2f, _, hl2t, hl2c, hl2meta, hl2u, hl2neg⟩ :=
    cacheContent_upsert (cacheContent ltable lnow1 lid1 sc1) lnow2 lid2 sc2 hlkey1
  refine ⟨?_, ?_, ?_, ?_, ?_, ?_⟩
  · rw [hr2f]
    rfl
  · rw [getCachedInterpretation, find?_eq_head?_filter, hr2f]
    simp [hr2i, hr2m, hr2meta, hr2t]
  · rw [hr2neg, hr1neg]
  · rw [hl2f]
    rfl
  · rw [find?_eq_head?_filter, hl2f]
    simp [hl2t, hl2c, hl2meta, hl2u]
  · rw [hl2neg, hl1neg]

/-- Claim C5 counterexample: the second `cacheInterpretation` call's
`fileType` does not win — the update path never writes `fileType`, so
after caching the same file id first as `"image"` and then as
`"video"`, the stored row still says `"image"`. -/
theorem claim_C5_counterexample :
    (getCachedInterpretation
      (cacheInterpretation
        (cacheInterpretation [] 1000 ("id1") ("file-1") ("image") ("first")
          ("gemini_vision") CacheMeta.empty).2
        2000 ("id2") ("file-1") ("video") ("second")
          ("speech_to_text") CacheMeta.empty).2
      ("file-1")).map (fun r => r.fileType) = some ("image")
    ∧ (("image" : String) = ("video")) = False := by
  constructor
  · decide
  · simp

/-- Claim C5 witness: the amended upsert theorem applied to an empty
interpretation table and an empty landing-page table, with the two
sample scrapes of one URL. -/
theorem claim_C5_witness :
    (([] : List AssetInterpRow).filter (fun r => r.dropboxFileId == ("file-1"))).length ≤ 1
    ∧ (([] : List LandingPageRow).filter (fun r => r.url == sampleScraped2.url)).length ≤ 1
    ∧ sampleScraped1.url = sampleScraped2.url
    ∧ ((cacheInterpretation
        (cacheInterpretation [] 1000 ("id1") ("file-1") ("image") ("first")
          ("gemini_vision") CacheMeta.empty).2
        2000 ("id2") ("file-1") ("video") ("second")
          ("speech_to_text") CacheMeta.empty).2.filter
        (fun r => r.dropboxFileId == ("file-1"))).length = 1 := by
  refine ⟨by decide, by decide, rfl, ?_⟩
  exact (claim_C5_cache_writes_are_upserts [] ("file-1") 1000 2000 ("id1") ("id2")
    ("image") ("video") ("first") ("second") ("gemini_vision") ("speech_to_text")
    CacheMeta.empty CacheMeta.empty [] 10 20 ("lid1") ("lid2")
    sampleScraped1 sampleScraped2 (by decide) (by decide) rfl).1

/-! ## Claim C6 -/

/-- Claim C6: cache freshness is boundary-inclusive — an interpretation
row updated exactly 30 days ago is fresh while one a second older is
stale (the general characterization `fresh ↔ now - updatedAt ≤ 30 days`
is given first and the two boundary instances follow from it), and a
landing-page lookup returns a hit exactly when the row is at most
7 days old; an older row is deleted during the lookup and the lookup
misses, while a hit leaves the table untouched. -/
theorem claim_C6_freshness_boundaries
    (table : List AssetInterpRow) (now : Int) (fid : String) (row : AssetInterpRow)
    (ltable : List LandingPageRow) (lnow : Int) (url : String) (lrow : LandingPageRow)
    (hrow : getCachedInterpretation table fid = some row)
    (hlrow : ltable.find? (fun r => r.url == url) = some lrow) :
    (isInterpretationFresh table now fid 30 = true ↔ now - row.updatedAt ≤ 30 * msPerDay)
    ∧ (row.updatedAt = now - 30 * msPerDay → isInterpretationFresh table now fid 30 = true)
    ∧ (row.updatedAt = now - 30 * msPerDay - 1000 → isInterpretationFresh table now fid 30 = false)
    ∧ ((getCachedContent ltable lnow url).1.isSome ↔ lnow - lrow.createdAt ≤ 7 * msPerDay)
    ∧ (lnow - lrow.createdAt > 7 * msPerDay →
        getCachedContent ltable lnow url = (none, ltable.filter (fun r => !(r.url == url))))
    ∧ (lnow - lrow.createdAt ≤ 7 * msPerDay →
        (getCachedContent ltable lnow url).2 = ltable ∧
        (getCachedContent ltable lnow url).1.map (fun h => (h.content, h.success)) =
          some (lrow.content, true)) := by
  have hfresh : isInterpretationFresh table now fid 30 =
      decide (now - row.updatedAt ≤ 30 * msPerDay) := by
    rw [isInterpretationFresh, hrow]
  refine ⟨?_, ?_, ?_, ?_, ?_, ?_⟩
  · rw [hfresh]
    exact decide_eq_true_iff
  · intro h
    rw [hfresh, h]
    simp
  · intro h
    rw [hfresh, h]
    rw [decide_eq_false_iff_not]
    omega
  · simp only [getCachedContent, hlrow]
    by_cases hgt : lnow - lrow.createdAt > 7 * msPerDay
    · rw [decide_eq_true hgt]
      simp only [if_pos rfl, Option.isSome_none]
      constructor
      · intro hc
        cases hc
      · intro hc
        omega
    · rw [decide_eq_false hgt]
      rw [if_neg Bool.false_ne_true]
      simp only [Option.isSome_some]
      constructor
      · intro _
        omega
      · intro _
        trivial
  · intro h
    simp only [getCachedContent, hlrow]
    rw [decide_eq_true h, if_pos rfl]
  · intro h
    simp only [getCachedContent, hlrow]
    rw [decide_eq_false (by omega), if_neg Bool.false_ne_true]
    exact ⟨rfl, rfl⟩

/-- Claim C6 witness: the freshness boundaries evaluated on one-row
tables — a row updated exactly 30 days before `now` is fresh, and a
7-day-old landing row is still returned as a hit. -/
theorem claim_C6_witness :
    getCachedInterpretation [sampleInterpRow (1700000000000 - 30 * msPerDay)] ("file-1") =
      some (sampleInterpRow (1700000000000 - 30 * msPerDay))
    ∧ [sampleLandingRow (1700000000000 - 7 * msPerDay)].find?
        (fun r => r.url == ("https://x.example")) =
      some (sampleLandingRow (1700000000000 - 7 * msPerDay))
    ∧ isInterpretationFresh [sampleInterpRow (1700000000000 - 30 * msPerDay)]
        1700000000000 ("file-1") 30 = true := by
  refine ⟨by decide, by decide, ?_⟩
  exact (claim_C6_freshness_boundaries
    [sampleInterpRow (1700000000000 - 30 * msPerDay)] 1700000000000 ("file-1")
    (sampleInterpRow (1700000000000 - 30 * msPerDay))
    [sampleLandingRow (1700000000000 - 7 * msPerDay)] 1700000000000 ("https://x.example")
    (sampleLandingRow (1700000000000 - 7 * msPerDay))
    (by decide) (by decide)).2.1 (by decide)

/-! ## Claim C9 -/

/-- Claim C9 evaluation at the failing input: with `now` fixed and one
row whose timestamp is one second strictly older than the 30-day
cutoff, `AssetInterpretationService.cleanupOldEntries` deletes it and
reports one deleted row, but `WebScraperService.cleanupCache` — whose
`where` clause tests `createdAt` for *equality* with the cutoff instead
of being older than it — deletes nothing and reports zero, leaving the
stale row in place; a row placed exactly at the cutoff is the only one
it deletes. -/
theorem claim_C9_cleanup_divergence :
    cleanupOldEntries [sampleInterpRow (1700000000000 - 30 * msPerDay - 1000)]
        1700000000000 30 = ([], 1)
    ∧ cleanupCache [sampleLandingRow (1700000000000 - 30 * msPerDay - 1000)]
        1700000000000 30 =
      ([sampleLandingRow (1700000000000 - 30 * msPerDay - 1000)], 0)
    ∧ cleanupCache [sampleLandingRow (1700000000000 - 30 * msPerDay)]
        1700000000000 30 = ([], 1) := by
  refine ⟨by decide, by decide, by decide⟩

/-! ## Claim C1 -/

theorem findProject_update (store : List ProjectRow) (pid uid : String) (st : ProjStatus) :
    findProject (updateProjectStatus store pid uid st) pid uid =
      (findProject store pid uid).map (fun p => { p with status := st }) := by
  induction store with
  | nil => rfl
  | cons a t ih =>
    rw [findProject, updateProjectStatus, List.map_cons, List.find?_cons]
    by_cases h : (a.id == pid && a.userId == uid) = true
    · rw [if_pos h]
      have h2 : (({ a with status := st } : ProjectRow).id == pid &&
          ({ a with status := st } : ProjectRow).userId == uid) = true := h
      rw [h2]
      rw [findProject, List.find?_cons, h]
      rfl
    · rw [if_neg h]
      simp only [Bool.not_eq_true] at h
      rw [h]
      rw [findProject, List.find?_cons, h]
      exact ih

/-- Claim C1: for every stored project of the calling user and every
run of `generateAdCopy`, the first status written is `processing`; a
successful generation ends with the project `completed` and the
mutation succeeding, any failure (constructor throw or a failed
`generateForProject` result) ends with the project `failed` and an
error propagated; the terminal status is never `processing`, neither in
the store nor as the last written status. -/
theorem claim_C1_status_machine (store : List ProjectRow) (pid uid : String)
    (g : GenerateOutcome) (h : (findProject store pid uid).isSome = true) :
    (generateAdCopy store pid uid g).2.1.head? = some ProjStatus.processing
    ∧ (isSuccessOutcome g = true →
        (findProject (generateAdCopy store pid uid g).1 pid uid).map (fun p => p.status) =
          some ProjStatus.completed
        ∧ (generateAdCopy store pid uid g).2.2 = Except.ok ())
    ∧ (isSuccessOutcome g = false →
        (findProject (generateAdCopy store pid uid g).1 pid uid).map (fun p => p.status) =
          some ProjStatus.failed
        ∧ ∃ msg, (generateAdCopy store pid uid g).2.2 = Except.error msg)
    ∧ (findProject (generateAdCopy store pid uid g).1 pid uid).map (fun p => p.status) ≠
        some ProjStatus.processing
    ∧ (generateAdCopy store pid uid g).2.1.getLast? ≠ some ProjStatus.processing := by
  cases hp : findProject store pid uid with
  | none =>
    rw [hp] at h
    cases h
  | some p =>
    cases g with
    | ctorFailure msg =>
      refine ⟨rfl, ?_, ?_, ?_, ?_⟩
      · intro hs
        cases hs
      · intro _
        constructor
        · simp only [generateAdCopy]
          rw [findProject_update, findProject_update, hp]
          rfl
        · exact ⟨("Ad copy generation failed: ") ++ msg, rfl⟩
      · simp only [generateAdCopy]
        rw [findProject_update, findProject_update, hp]
        simp
      · simp [generateAdCopy]
    | finished ok err =>
      cases ok with
      | true =>
        refine ⟨rfl, ?_, ?_, ?_, ?_⟩
        · intro _
          constructor
          · simp only [generateAdCopy, if_pos]
            rw [findProject_update, findProject_update, hp]
            rfl
          · rfl
        · intro hs
          cases hs
        · simp only [generateAdCopy, if_pos]
          rw [findProject_update, findProject_update, hp]
          simp
        · simp [generateAdCopy]
      | false =>
        refine ⟨rfl, ?_, ?_, ?_, ?_⟩
        · intro hs
          cases hs
        · intro _
          constructor
          · simp only [generateAdCopy, Bool.false_eq_true, if_false]
            rw [findProject_update, findProject_update, findProject_update, hp]
            rfl
          · exact ⟨("Ad copy generation failed: ") ++ err, rfl⟩
        · simp only [generateAdCopy, Bool.false_eq_true, if_false]
          rw [findProject_update, findProject_update, findProject_update, hp]
          simp
        · simp [generateAdCopy]

/-- Claim C1 witness: the status machine run on a one-project store —
a successful run ends `completed`, starting from status `processing`. -/
theorem claim_C1_witness :
    (findProject [{ id := ("p1"), userId := ("u1"), status := ProjStatus.draft }]
      ("p1") ("u1")).isSome = true
    ∧ (findProject (generateAdCopy
        [{ id := ("p1"), userId := ("u1"), status := ProjStatus.draft }]
        ("p1") ("u1") (GenerateOutcome.finished true (""))).1 ("p1") ("u1")).map
        (fun p => p.status) = some ProjStatus.completed := by
  refine ⟨by decide, ?_⟩
  exact ((claim_C1_status_machine
    [{ id := ("p1"), userId := ("u1"), status := ProjStatus.draft }]
    ("p1") ("u1") (GenerateOutcome.finished true ("")) (by decide)).2.1 rfl).1

/-! ## Claim C4 -/

/-- Claim C4: `listFiles` refreshes if and only if the stored expiry is
absent or less than 5 minutes away — a token ≥ 5 minutes out is used
unchanged with zero refresh calls; on refresh, the row is rewritten
with the new access token and the expiry `now + expires_in * 1000`
before the token is used and exactly one refresh is counted; a missing
refresh token or a non-2xx refresh response turns into an error that
fails the entire `listFiles` call; and on success `listFiles` reports
exactly the refresh count, written-back store and bearer token the
refresh step produced. -/
theorem claim_C4_token_refresh (now : Int) (resp : RefreshResp)
    (pages : List ListPageResp) (store : List Integration) (userId : String)
    (cred : Integration)
    (hcred : getActiveIntegration store userId = Except.ok cred) :
    (∀ e, cred.tokenExpiresAt = some e → 5 * 60 * 1000 ≤ e - now →
      refreshTokenIfNeeded now resp store cred = Except.ok (cred.accessToken, store, 0))
    ∧ ((cred.tokenExpiresAt = none ∨
        ∃ e, cred.tokenExpiresAt = some e ∧ e - now < 5 * 60 * 1000) →
        (cred.refreshToken = none →
          refreshTokenIfNeeded now resp store cred =
            Except.error ("No refresh token available"))
        ∧ (cred.refreshToken ≠ none → resp.ok = false →
            refreshTokenIfNeeded now resp store cred =
              Except.error ("Failed to refresh Dropbox token"))
        ∧ (cred.refreshToken ≠ none → resp.ok = true →
            ∃ st2, refreshTokenIfNeeded now resp store cred =
                Except.ok (resp.accessToken, st2, 1)
              ∧ st2.find? (fun r => r.id == cred.id) =
                  (store.find? (fun r => r.id == cred.id)).map
                    (fun r => { r with
                                accessToken := resp.accessToken
                                tokenExpiresAt := refreshedExpiry now resp })
              ∧ st2.filter (fun r => !(r.id == cred.id)) =
                  store.filter (fun r => !(r.id == cred.id))
              ∧ (∀ s, resp.expiresIn = some s → ¬s = 0 →
                  refreshedExpiry now resp = some (now + s * 1000))))
    ∧ (∀ msg, refreshTokenIfNeeded now resp store cred = Except.error msg →
        listFiles now resp pages store userId = Except.error msg)
    ∧ (∀ tok st2 n files st3 n2 tok2,
        refreshTokenIfNeeded now resp store cred = Except.ok (tok, st2, n) →
        listFiles now resp pages store userId = Except.ok (files, st3, n2, tok2) →
        st3 = st2 ∧ n2 = n ∧ tok2 = tok) := by
  refine ⟨?_, ?_, ?_, ?_⟩
  · intro e he hge
    have hnr : needsRefresh now cred = false := by
      rw [needsRefresh, he, decide_eq_false_iff_not]
      omega
    rw [refreshTokenIfNeeded, hnr, if_neg Bool.false_ne_true]
  · intro htrig
    have hnr : needsRefresh now cred = true := by
      cases htrig with
      | inl hnone => rw [needsRefresh, hnone]
      | inr hex =>
        obtain ⟨e, he, hlt⟩ := hex
        rw [needsRefresh, he]
        exact decide_eq_true hlt
    refine ⟨?_, ?_, ?_⟩
    · intro hrt
      rw [refreshTokenIfNeeded, hnr, if_pos rfl, hrt]
    · intro hrt hnok
      obtain ⟨rt, hrt2⟩ := Option.ne_none_iff_exists'.mp hrt
      rw [refreshTokenIfNeeded, hnr, if_pos rfl, hrt2, hnok, if_neg Bool.false_ne_true]
    · intro hrt hok
      obtain ⟨rt, hrt2⟩ := Option.ne_none_iff_exists'.mp hrt
      refine ⟨store.map (fun r =>
          if r.id == cred.id then
            { r with
              accessToken := resp.accessToken
              tokenExpiresAt := refreshedExpiry now resp }
          else r), ?_, ?_, ?_, ?_⟩
      · rw [refreshTokenIfNeeded, hnr, if_pos rfl, hrt2, hok, if_pos rfl]
      · rw [find?_eq_head?_filter, find?_eq_head?_filter]
        rw [filter_pos_map_ite (fun r : Integration => r.id == cred.id)
          (fun r => { r with
                      accessToken := resp.accessToken
                      tokenExpiresAt := refreshedExpiry now resp }) (fun a => rfl) store]
        cases store.filter (fun r : Integration => r.id == cred.id) with
        | nil => rfl
        | cons x xs => rfl
      · exact filter_neg_map_ite (fun r : Integration => r.id == cred.id)
          (fun r => { r with
                      accessToken := resp.accessToken
                      tokenExpiresAt := refreshedExpiry now resp }) (fun a => rfl) store
      · intro s hs hsne
        rw [refreshedExpiry, hs]
        simp [hsne]
  · intro msg hmsg
    simp only [listFiles, hcred, hmsg]
  · intro tok st2 n files st3 n2 tok2 hok hlist
    simp only [listFiles, hcred, hok] at hlist
    cases hloop : listFilesLoop pages [] with
    | error e =>
      rw [hloop] at hlist
      cases hlist
    | ok fl =>
      rw [hloop] at hlist
      simp only [Except.ok.injEq, Prod.mk.injEq] at hlist
      exact ⟨hlist.2.1.symm, hlist.2.2.1.symm, hlist.2.2.2.symm⟩

/-- Claim C4 witness: a credential expiring two minutes out triggers
exactly one refresh whose token is used by `listFiles`, with the new
expiry written back; the same credential ten minutes out refreshes
nothing. -/
theorem claim_C4_witness :
    getActiveIntegration
      [{ id := ("i1"), userId := ("u1"), provider := ("dropbox"), isActive := true,
         accessToken := ("old"), refreshToken := some ("rt"),
         tokenExpiresAt := some (1700000120000) }] ("u1") =
      Except.ok
        { id := ("i1"), userId := ("u1"), provider := ("dropbox"), isActive := true,
          accessToken := ("old"), refreshToken := some ("rt"),
          tokenExpiresAt := some (1700000120000) }
    ∧ refreshTokenIfNeeded 1700000000000
        { ok := true, accessToken := ("newtok"), expiresIn := some 14400 }
        [{ id := ("i1"), userId := ("u1"), provider := ("dropbox"), isActive := true,
           accessToken := ("old"), refreshToken := some ("rt"),
           tokenExpiresAt := some (1700000120000) }]
        { id := ("i1"), userId := ("u1"), provider := ("dropbox"), isActive := true,
          accessToken := ("old"), refreshToken := some ("rt"),
          tokenExpiresAt := some (1700000120000) } =
      Except.ok (("newtok"),
        [{ id := ("i1"), userId := ("u1"), provider := ("dropbox"), isActive := true,
           accessToken := ("newtok"), refreshToken := some ("rt"),
           tokenExpiresAt := some (1700014400000) }], 1)
    ∧ refreshTokenIfNeeded 1700000000000
        { ok := true, accessToken := ("newtok"), expiresIn := some 14400 }
        [{ id := ("i1"), userId := ("u1"), provider := ("dropbox"), isActive := true,
           accessToken := ("old"), refreshToken := some ("rt"),
           tokenExpiresAt := some (1700000600000) }]
        { id := ("i1"), userId := ("u1"), provider := ("dropbox"), isActive := true,
          accessToken := ("old"), refreshToken := some ("rt"),
          tokenExpiresAt := some (1700000600000) } =
      Except.ok (("old"),
        [{ id := ("i1"), userId := ("u1"), provider := ("dropbox"), isActive := true,
           accessToken := ("old"), refreshToken := some ("rt"),
           tokenExpiresAt := some (1700000600000) }], 0) := by
  refine ⟨by rfl, by rfl, ?_⟩
  exact (claim_C4_token_refresh 1700000000000
    { ok := true, accessToken := ("newtok"), expiresIn := some 14400 } []
    [{ id := ("i1"), userId := ("u1"), provider := ("dropbox"), isActive := true,
       accessToken := ("old"), refreshToken := some ("rt"),
       tokenExpiresAt := some (1700000600000) }] ("u1")
    { id := ("i1"), userId := ("u1"), provider := ("dropbox"), isActive := true,
      accessToken := ("old"), refreshToken := some ("rt"),
      tokenExpiresAt := some (1700000600000) }
    (by rfl)).1 1700000600000 rfl (by decide)

/-! ## Claim C7 -/

theorem interpretAssetsAux_length
    (callOutcome : Nat → AssetSpec → Except String AssetInterpretationResult)
    (start : Nat) (assets : List AssetSpec) :
    (interpretAssetsAux callOutcome start assets).length = assets.length := by
  induction assets generalizing start with
  | nil => rfl
  | cons a rest ih =>
    rw [interpretAssetsAux, List.length_cons, List.length_cons, ih]

theorem interpretAssetsAux_get?
    (callOutcome : Nat → AssetSpec → Except String AssetInterpretationResult)
    (start i : Nat) (assets : List AssetSpec) :
    (interpretAssetsAux callOutcome start assets).get? i =
      (assets.get? i).map (fun a =>
        match callOutcome (start + i) a with
        | Except.ok r => r
        | Except.error e => batchFailureResult a e) := by
  induction assets generalizing start i with
  | nil => rfl
  | cons a rest ih =>
    cases i with
    | zero => rfl
    | succ j =>
      rw [interpretAssetsAux, List.get?_cons_succ, List.get?_cons_succ]
      have harith : start + 1 + j = start + (j + 1) := by omega
      rw [ih (start + 1) j, harith]

/-- Claim C7: `interpretAssets` returns exactly one result per input
asset, in input order (result `i` is determined by asset `i` and its
own call outcome alone); a rejection while interpreting one asset does
not abort the batch — that position carries a `success = false` record
with the batch error string and the remaining assets are still
processed per their own outcome. -/
theorem claim_C7_sequential_batch
    (callOutcome : Nat → AssetSpec → Except String AssetInterpretationResult)
    (assets : List AssetSpec) :
    (interpretAssets callOutcome assets).length = assets.length
    ∧ (∀ i, (interpretAssets callOutcome assets).get? i =
        (assets.get? i).map (fun a =>
          match callOutcome i a with
          | Except.ok r => r
          | Except.error e => batchFailureResult a e))
    ∧ (∀ i a e, assets.get? i = some a → callOutcome i a = Except.error e →
        (interpretAssets callOutcome assets).get? i = some (batchFailureResult a e)
        ∧ (batchFailureResult a e).success = false
        ∧ (batchFailureResult a e).error = some (("Batch processing failed: ") ++ e)) := by
  refine ⟨interpretAssetsAux_length callOutcome 0 assets, ?_, ?_⟩
  · intro i
    have := interpretAssetsAux_get? callOutcome 0 i assets
    rw [Nat.zero_add] at this
    exact this
  · intro i a e ha he
    have h := interpretAssetsAux_get? callOutcome 0 i assets
    rw [Nat.zero_add, ha] at h
    refine ⟨?_, rfl, rfl⟩
    rw [interpretAssets, h]
    simp [he]

/-- Claim C7 witness: a three-asset batch whose middle call rejects —
three results come back in order and the middle one is the failure
record. -/
theorem claim_C7_witness :
    ([{ dropboxFileId := ("a"), filePath := ("/a"), fileType := ("image"), fileName := ("a.jpg") },
      { dropboxFileId := ("b"), filePath := ("/b"), fileType := ("image"), fileName := ("b.jpg") },
      { dropboxFileId := ("c"), filePath := ("/c"), fileType := ("video"), fileName := ("c.mp4") }] :
        List AssetSpec).get? 1 =
      some { dropboxFileId := ("b"), filePath := ("/b"), fileType := ("image"), fileName := ("b.jpg") }
    ∧ (interpretAssets
        (fun i a => if i == 1 then Except.error ("boom")
          else Except.ok (batchFailureResult a ("unused")))
        [{ dropboxFileId := ("a"), filePath := ("/a"), fileType := ("image"), fileName := ("a.jpg") },
         { dropboxFileId := ("b"), filePath := ("/b"), fileType := ("image"), fileName := ("b.jpg") },
         { dropboxFileId := ("c"), filePath := ("/c"), fileType := ("video"), fileName := ("c.mp4") }]).get? 1 =
      some (batchFailureResult
        { dropboxFileId := ("b"), filePath := ("/b"), fileType := ("image"), fileName := ("b.jpg") }
        ("boom")) := by
  refine ⟨by rfl, ?_⟩
  exact ((claim_C7_sequential_batch
    (fun i a => if i == 1 then Except.error ("boom")
      else Except.ok (batchFailureResult a ("unused")))
    [{ dropboxFileId := ("a"), filePath := ("/a"), fileType := ("image"), fileName := ("a.jpg") },
     { dropboxFileId := ("b"), filePath := ("/b"), fileType := ("image"), fileName := ("b.jpg") },
     { dropboxFileId := ("c"), filePath := ("/c"), fileType := ("video"), fileName := ("c.mp4") }]).2.2
    1 { dropboxFileId := ("b"), filePath := ("/b"), fileType := ("image"), fileName := ("b.jpg") }
    ("boom") (by rfl) (by rfl)).1

/-! ## Claim C8 -/

theorem processSpeechResponse_success (lang : String) (resp : SpeechAPIResponse)
    (hne : resp.results ≠ []) : (processSpeechResponse lang resp).success = true := by
  rw [processSpeechResponse, if_neg]
  intro hc
  exact hne (List.isEmpty_iff.mp hc)

/-- Claim C8 (amended): for a video asset with no fresh cache entry,
successful audio extraction and a transcription call that *succeeds*
with an empty or whitespace-only transcript, `interpretAsset` returns
`success = true` and the descriptive fallback interpretation carrying
the file name and the video duration; when the speech API instead
returns an empty results list, the transcription itself is reported
failed (`"No speech detected in audio"`) and the asset fails rather
than receiving the fallback. -/
theorem claim_C8_silent_video_fallback
    (table : List AssetInterpRow) (now : Int) (newCacheId fid fileName : String)
    (vision : ImageVisionResult) (videoResult : VideoProcessingResult)
    (shortResp longResp : SpeechAPIResponse)
    (hmiss : getCachedInterpretation table fid = none ∨
      isInterpretationFresh table now fid 30 = false)
    (hext : videoResult.success = true)
    (hres : (if videoResult.duration < 60 then shortResp else longResp).results ≠ [])
    (hempty : strTrim (transcribeAudioAuto shortResp longResp videoResult.duration
      ("en-US")).transcript = ("")) :
    (interpretAsset table now newCacheId fid ("video") fileName vision videoResult
      shortResp longResp).1.success = true
    ∧ (interpretAsset table now newCacheId fid ("video") fileName vision videoResult
        shortResp longResp).1.interpretation =
      ("Video file \"") ++ fileName ++ ("\" (") ++ intToStr videoResult.duration ++
        ("s duration) contains no detectable speech or audio content. This appears to be a silent video or contains only background music/sounds.") := by
  have hauto : transcribeAudioAuto shortResp longResp videoResult.duration ("en-US") =
      processSpeechResponse ("en-US")
        (if videoResult.duration < 60 then shortResp else longResp) := by
    rw [transcribeAudioAuto]
    by_cases hd : videoResult.duration < 60
    · rw [if_pos hd, if_pos hd]
    · rw [if_neg hd, if_neg hd]
  have hsuc : (transcribeAudioAuto shortResp longResp videoResult.duration
      ("en-US")).success = true := by
    rw [hauto]
    exact processSpeechResponse_success _ _ hres
  have henh : enhanceVideoInterpretation
      (transcribeAudioAuto shortResp longResp videoResult.duration ("en-US")).transcript
      fileName videoResult.duration =
      ("Video file \"") ++ fileName ++ ("\" (") ++ intToStr videoResult.duration ++
        ("s duration) contains no detectable speech or audio content. This appears to be a silent video or contains only background music/sounds.") := by
    rw [enhanceVideoInterpretation, hempty]
    exact if_pos (by decide)
  have hv : interpretVideo fid fileName videoResult shortResp longResp =
      { dropboxFileId := fid
        fileType := ("video")
        interpretation := ("Video file \"") ++ fileName ++ ("\" (") ++
          intToStr videoResult.duration ++
          ("s duration) contains no detectable speech or audio content. This appears to be a silent video or contains only background music/sounds.")
        processingMethod := ("speech_to_text")
        success := true
        error := none
        confidence := some (transcribeAudioAuto shortResp longResp videoResult.duration
          ("en-US")).confidence
        duration := some videoResult.duration
        fromCache := false } := by
    rw [interpretVideo, hext]
    simp only [Bool.not_true, Bool.false_eq_true, if_false, hsuc, henh]
  have hne : (("video" : String) == ("image")) = false := by decide
  have hafter : (interpretAsset table now newCacheId fid ("video") fileName vision
      videoResult shortResp longResp).1 =
      interpretVideo fid fileName videoResult shortResp longResp := by
    cases hc : getCachedInterpretation table fid with
    | none =>
      simp only [interpretAsset, hc, hne, Bool.false_eq_true, if_false]
      split
      · rfl
      · rfl
    | some c =>
      have hfresh : isInterpretationFresh table now fid 30 = false := by
        cases hmiss with
        | inl hl => rw [hl] at hc; cases hc
        | inr hr => exact hr
      simp only [interpretAsset, hc, hfresh, Bool.false_eq_true, if_false, hne]
      split
      · rfl
      · rfl
  rw [hafter, hv]
  exact ⟨rfl, rfl⟩

/-- Claim C8 counterexample: audio extraction succeeds on a silent
10-second video, the speech API reports no results, and
`interpretAsset` returns a *failure* (`success = false`, error
`"No speech detected in audio"`) — not the success-with-fallback the
claim asserts for every no-detectable-speech video. -/
theorem claim_C8_counterexample :
    (interpretAsset [] 0 ("cid") ("f1") ("video") ("v.mp4")
        { interpretation := (""), confidence := 0, success := false, error := none }
        { audioPath := ("a.wav"), duration := 10, success := true, error := none }
        { results := [] } { results := [] }).1.success = false
    ∧ (interpretAsset [] 0 ("cid") ("f1") ("video") ("v.mp4")
        { interpretation := (""), confidence := 0, success := false, error := none }
        { audioPath := ("a.wav"), duration := 10, success := true, error := none }
        { results := [] } { results := [] }).1.error =
      some ("No speech detected in audio") := by
  exact ⟨by decide, by decide⟩

/-- Claim C8 witness: a silent 10-second video whose recognition call
returns one result with no alternatives — transcription succeeds with
an empty transcript and the asset succeeds with the fallback text. -/
theorem claim_C8_witness :
    (interpretAsset [] 0 ("cid") ("f1") ("video") ("v.mp4")
        { interpretation := (""), confidence := 0, success := false, error := none }
        { audioPath := ("a.wav"), duration := 10, success := true, error := none }
        { results := [{ alternatives := [] }] } { results := [] }).1.success = true
    ∧ (interpretAsset [] 0 ("cid") ("f1") ("video") ("v.mp4")
        { interpretation := (""), confidence := 0, success := false, error := none }
        { audioPath := ("a.wav"), duration := 10, success := true, error := none }
        { results := [{ alternatives := [] }] } { results := [] }).1.interpretation =
      ("Video file \"v.mp4\" (10s duration) contains no detectable speech or audio content. This appears to be a silent video or contains only background music/sounds.") := by
  have h := claim_C8_silent_video_fallback [] 0 ("cid") ("f1") ("v.mp4")
    { interpretation := (""), confidence := 0, success := false, error := none }
    { audioPath := ("a.wav"), duration := 10, success := true, error := none }
    { results := [{ alternatives := [] }] } { results := [] }
    (Or.inl (by decide)) (by decide) (by decide) (by decide)
  refine ⟨h.1, ?_⟩
  rw [h.2]
  decide

/-! ## Claim C3 -/

theorem replaceChars_not_contains (pc : Char) (pcs rep : List Char) :
    ∀ (fuel : Nat) (s : List Char), containsSub (pc :: pcs) s = false →
      replaceChars pc pcs rep fuel s = s := by
  intro fuel
  induction fuel with
  | zero =>
    intro s _
    rfl
  | succ fuel ih =>
    intro s h
    match s with
    | [] => rfl
    | c :: rest =>
      simp only [containsSub, Bool.or_eq_false_iff] at h
      rw [replaceChars]
      simp [h.1, ih rest h.2]

theorem containsSub_nil_pat (l : List Char) : containsSub [] l = true := by
  cases l with
  | nil => rfl
  | cons c rest => rfl

theorem replaceAllStr_not_contains (pat rep s : String)
    (h : strContainsB s pat = false) : replaceAllStr pat rep s = s := by
  rw [strContainsB] at h
  cases hp : pat.data with
  | nil =>
    rw [hp] at h
    rw [containsSub_nil_pat] at h
    cases h
  | cons pc pcs =>
    rw [hp] at h
    simp only [replaceAllStr, hp]
    rw [replaceChars_not_contains pc pcs rep.data s.data.length s.data h]

theorem guarded_replace_eq (pat A B s : String) (cond : Prop) [Decidable cond] :
    (if strContainsB s pat = true then
      (if cond then replaceAllStr pat A s else replaceAllStr pat B s)
    else s) = replaceAllStr pat (if cond then A else B) s := by
  by_cases hg : strContainsB s pat = true
  · rw [if_pos hg]
    by_cases hc : cond
    · rw [if_pos hc, if_pos hc]
    · rw [if_neg hc, if_neg hc]
  · rw [if_neg hg]
    simp only [Bool.not_eq_true] at hg
    rw [replaceAllStr_not_contains pat _ s hg]

/-- Claim C3 (amended): the per-section substitution of
`buildPromptFromTemplate` equals the spec's description — global
textual replaces of `{projectName}`, `{variationCount}`,
`{variationType}` (falling back to `"benefits"` when the context leaves
it unset *or empty*, JS falsiness), `{assetInterpretations}` (numbered
`"Asset N: …"` list, `"No assets provided."` when the list is empty)
and `{landingPageContent}` (numbered `"Page N: …"` list,
`"No landing page content provided."` when empty) — and a section
containing none of the five known placeholders (in particular one with
only unknown `{…}` tokens) passes through verbatim, never an error. -/
theorem claim_C3_placeholder_substitution (c : PromptContext) (content : String) :
    substituteSection c content = substituteSectionSpec c content
    ∧ (noKnownPlaceholder content → substituteSection c content = content) := by
  constructor
  · simp only [substituteSection, substituteSectionSpec]
    rw [guarded_replace_eq, guarded_replace_eq]
  · intro h
    obtain ⟨h1, h2, h3, h4, h5⟩ := h
    simp only [substituteSection]
    rw [replaceAllStr_not_contains _ _ _ h1, replaceAllStr_not_contains _ _ _ h2,
      replaceAllStr_not_contains _ _ _ h3]
    rw [h4, if_neg Bool.false_ne_true, h5, if_neg Bool.false_ne_true]

/-- Claim C3 counterexample: with `variationType` *set* to the empty
string, `{variationType}` is replaced by `"benefits"`, not by the
context value `""` — JS `||` treats the empty string as unset. -/
theorem claim_C3_counterexample :
    substituteSection
      { projectName := ("P"), assetInterpretations := [], landingPageContent := [],
        variationCount := 3, variationType := some ("") } ("{variationType}") =
      ("benefits")
    ∧ some ("") ≠ (none : Option String)
    ∧ (("benefits" : String) = ("")) = False := by
  refine ⟨by decide, by decide, by simp⟩

/-- Claim C3 witness: the substitution theorem applied to a section
that carries only an unknown placeholder — it passes through
verbatim. -/
theorem claim_C3_witness :
    noKnownPlaceholder ("unknown {foo} stays")
    ∧ substituteSection
        { projectName := ("P"), assetInterpretations := [], landingPageContent := [],
          variationCount := 3, variationType := none } ("unknown {foo} stays") =
      ("unknown {foo} stays") := by
  refine ⟨⟨by decide, by decide, by decide, by decide, by decide⟩, ?_⟩
  exact (claim_C3_placeholder_substitution
    { projectName := ("P"), assetInterpretations := [], landingPageContent := [],
      variationCount := 3, variationType := none } ("unknown {foo} stays")).2
    ⟨by decide, by decide, by decide, by decide, by decide⟩

/-! ## Claim C2 -/

theorem foldl_render_eq (c : PromptContext) (sep init : String)
    (sections : List PromptSection) :
    sections.foldl (fun acc s => acc ++ substituteSection c s.content ++ sep) (init ++ sep) =
      joinSep sep (init :: sections.map (fun s => substituteSection c s.content)) ++ sep := by
  induction sections generalizing init with
  | nil => rfl
  | cons s ss ih =>
    rw [List.foldl_cons]
    exact ih ((init ++ sep) ++ substituteSection c s.content)

theorem sorted_perm_eq_of_nodup_orders :
    ∀ (l₁ l₂ : List PromptSection), l₁.Perm l₂ → List.Sorted orderLe l₁ →
      List.Sorted orderLe l₂ → (l₁.map (fun s => s.order)).Nodup → l₁ = l₂ := by
  intro l₁
  induction l₁ with
  | nil =>
    intro l₂ hp _ _ _
    exact (List.Perm.eq_nil hp.symm).symm
  | cons a t ih =>
    intro l₂ hp hs₁ hs₂ hnd
    cases l₂ with
    | nil => exact absurd (List.Perm.eq_nil hp) (by simp)
    | cons b t₂ =>
      by_cases hab : a = b
      · subst hab
        have ht := hp.cons_inv
        have htails := ih t₂ ht (List.sorted_cons.mp hs₁).2 (List.sorted_cons.mp hs₂).2
          (by
            simp only [List.map_cons, List.nodup_cons] at hnd
            exact hnd.2)
        rw [htails]
      · have ha2 : a ∈ b :: t₂ := hp.subset (List.mem_cons_self a t)
        have hat2 : a ∈ t₂ := by
          cases List.mem_cons.mp ha2 with
          | inl h => exact absurd h hab
          | inr h => exact h
        have hb1 : b ∈ a :: t := hp.symm.subset (List.mem_cons_self b t₂)
        have hbt : b ∈ t := by
          cases List.mem_cons.mp hb1 with
          | inl h => exact absurd h.symm hab
          | inr h => exact h
        have h1 : a.order ≤ b.order := (List.sorted_cons.mp hs₁).1 b hbt
        have h2 : b.order ≤ a.order := (List.sorted_cons.mp hs₂).1 a hat2
        have heq : a.order = b.order := le_antisymm h1 h2
        exfalso
        simp only [List.map_cons, List.nodup_cons] at hnd
        exact hnd.1 (by
          rw [heq]
          exact List.mem_map_of_mem (fun s => s.order) hbt)

/-- Claim C2: `buildPromptFromTemplate` is a pure function (two calls
with the same inputs give the same string); its output is the system
prompt followed by the substituted sections in ascending `order` — the
rendered section list is a permutation of the stored one, sorted by
`order`, joined with blank-line separators and trimmed at the end — and
when the section orders are pairwise distinct the output is the same
for every storage order of the sections. -/
theorem claim_C2_template_rendering (t : PromptTemplate) (c : PromptContext) :
    buildPromptFromTemplate t c = buildPromptFromTemplate t c
    ∧ (sortSections t.template.sections).Perm t.template.sections
    ∧ List.Sorted orderLe (sortSections t.template.sections)
    ∧ buildPromptFromTemplate t c =
        strTrim (joinSep ("\n\n")
          (t.template.systemPrompt ::
            (sortSections t.template.sections).map (fun s => substituteSection c s.content))
          ++ ("\n\n"))
    ∧ (∀ sections2, sections2.Perm t.template.sections →
        (t.template.sections.map (fun s => s.order)).Nodup →
        buildPromptFromTemplate
          { t with template := { t.template with sections := sections2 } } c =
          buildPromptFromTemplate t c) := by
  refine ⟨rfl, ?_, ?_, ?_, ?_⟩
  · exact List.perm_insertionSort orderLe t.template.sections
  · exact List.sorted_insertionSort orderLe t.template.sections
  · simp only [buildPromptFromTemplate]
    rw [foldl_render_eq]
  · intro sections2 hperm hnodup
    have hsorteq : sortSections sections2 = sortSections t.template.sections := by
      apply sorted_perm_eq_of_nodup_orders
      · exact ((List.perm_insertionSort orderLe sections2).trans hperm).trans
          (List.perm_insertionSort orderLe t.template.sections).symm
      · exact List.sorted_insertionSort orderLe sections2
      · exact List.sorted_insertionSort orderLe t.template.sections
      · have hmapperm : ((sortSections sections2).map (fun s => s.order)).Perm
            (t.template.sections.map (fun s => s.order)) :=
          List.Perm.map (fun s => s.order)
            ((List.perm_insertionSort orderLe sections2).trans hperm)
        exact (List.Perm.nodup_iff hmapperm).mpr hnodup
    simp only [buildPromptFromTemplate, hsorteq]

/-- Claim C2 witness: the rendering applied to a two-section template
stored in descending order; swapping the stored order leaves the
rendered prompt unchanged. -/
theorem claim_C2_witness :
    ([{ id := ("a"), name := ("A"), content := ("first"), editable := true,
        required := true, order := 1 },
      { id := ("b"), name := ("B"), content := ("second"), editable := true,
        required := true, order := 2 }] : List PromptSection).Perm
      [{ id := ("b"), name := ("B"), content := ("second"), editable := true,
         required := true, order := 2 },
       { id := ("a"), name := ("A"), content := ("first"), editable := true,
         required := true, order := 1 }]
    ∧ (([{ id := ("b"), name := ("B"), content := ("second"), editable := true,
           required := true, order := 2 },
         { id := ("a"), name := ("A"), content := ("first"), editable := true,
           required := true, order := 1 }] : List PromptSection).map
        (fun s => s.order)).Nodup
    ∧ buildPromptFromTemplate
        { id := ("t"), userId := ("u"), name := ("n"), promptType := ("ad_copy"),
          isDefault := true,
          template :=
            { platform := ("facebook"), systemPrompt := ("SYS"),
              sections :=
                [{ id := ("a"), name := ("A"), content := ("first"), editable := true,
                   required := true, order := 1 },
                 { id := ("b"), name := ("B"), content := ("second"), editable := true,
                   required := true, order := 2 }] } }
        { projectName := ("P"), assetInterpretations := [], landingPageContent := [],
          variationCount := 2, variationType := none } =
      buildPromptFromTemplate
        { id := ("t"), userId := ("u"), name := ("n"), promptType := ("ad_copy"),
          isDefault := true,
          template :=
            { platform := ("facebook"), systemPrompt := ("SYS"),
              sections :=
                [{ id := ("b"), name := ("B"), content := ("second"), editable := true,
                   required := true, order := 2 },
                 { id := ("a"), name := ("A"), content := ("first"), editable := true,
                   required := true, order := 1 }] } }
        { projectName := ("P"), assetInterpretations := [], landingPageContent := [],
          variationCount := 2, variationType := none } := by
  refine ⟨by decide, by decide, ?_⟩
  exact (claim_C2_template_rendering
    { id := ("t"), userId := ("u"), name := ("n"), promptType := ("ad_copy"),
      isDefault := true,
      template :=
        { platform := ("facebook"), systemPrompt := ("SYS"),
          sections :=
            [{ id := ("b"), name := ("B"), content := ("second"), editable := true,
               required := true, order := 2 },
             { id := ("a"), name := ("A"), content := ("first"), editable := true,
               required := true, order := 1 }] } }
    { projectName := ("P"), assetInterpretations := [], landingPageContent := [],
      variationCount := 2, variationType := none }).2.2.2.2
    [{ id := ("a"), name := ("A"), content := ("first"), editable := true,
       required := true, order := 1 },
     { id := ("b"), name := ("B"), content := ("second"), editable := true,
       required := true, order := 2 }]
    (by decide) (by decide)

/-! ## Claim C10 -/

theorem natDigitsRev_length_le (fuel n k : Nat) (hk : 0 < k) (h : n < 10 ^ k) :
    (natDigitsRev fuel n).length ≤ k := by
  induction fuel generalizing n k with
  | zero => simp [natDigitsRev]
  | succ fuel ih =>
    rw [natDigitsRev]
    by_cases hn : n < 10
    · simp only [hn, if_true, List.length_singleton]
      omega
    · simp only [hn, if_false, List.length_cons]
      have hk2 : 2 ≤ k := by
        by_contra hc
        have hk1 : k = 1 := by omega
        subst hk1
        rw [pow_one] at h
        omega
      have hd : n / 10 < 10 ^ (k - 1) := by
        have h10 : 10 ^ k = 10 ^ (k - 1) * 10 := by
          conv_lhs => rw [show k = (k - 1) + 1 by omega]
          ring
        rw [Nat.div_lt_iff_lt_mul (by norm_num)]
        omega
      have := ih (n / 10) (k - 1) (by omega) hd
      omega

theorem natToStr_length_le (n k : Nat) (hk : 0 < k) (h : n < 10 ^ k) :
    (natToStr n).length ≤ k := by
  show ((natDigitsRev (n + 1) n).reverse).length ≤ k
  rw [List.length_reverse]
  exact natDigitsRev_length_le (n + 1) n k hk h

theorem strLength_append (a b : String) : (a ++ b).length = a.length + b.length :=
  List.length_append a.data b.data

theorem truncateText_length_le (text : String) (maxLength : Nat) (h3 : 3 ≤ maxLength) :
    (truncateText text maxLength).length ≤ maxLength := by
  rw [truncateText]
  by_cases hl : text.length ≤ maxLength
  · rw [if_pos hl]
    exact hl
  · rw [if_neg hl]
    rw [strLength_append]
    have h1 : (String.mk (text.data.take (maxLength - 3))).length ≤ maxLength - 3 := by
      show (text.data.take (maxLength - 3)).length ≤ maxLength - 3
      rw [List.length_take]
      exact min_le_left _ _
    have h2 : (("..." : String)).length = 3 := rfl
    omega

theorem parseVariationBlock_bounds (block : List Char) (i : Nat) :
    (parseVariationBlock block i).headline.length ≤ 60
    ∧ (parseVariationBlock block i).body.length ≤ 150
    ∧ (parseVariationBlock block i).callToAction.length ≤ 30 :=
  ⟨truncateText_length_le _ 60 (by norm_num),
   truncateText_length_le _ 150 (by norm_num),
   truncateText_length_le _ 30 (by norm_num)⟩

theorem fallbackVariation_bounds (k : Nat) (h : k + 1 < 10 ^ 10) :
    (fallbackVariation k).headline.length ≤ 60
    ∧ (fallbackVariation k).body.length ≤ 150
    ∧ (fallbackVariation k).callToAction.length ≤ 30 := by
  have hn : (natToStr (k + 1)).length ≤ 10 := natToStr_length_le (k + 1) 10 (by norm_num) h
  refine ⟨?_, ?_, ?_⟩
  · have ha : (fallbackVariation k).headline.length =
        (("Compelling Headline " : String)).length + (natToStr (k + 1)).length :=
      strLength_append _ _
    have hb : (("Compelling Headline " : String)).length = 20 := by decide
    omega
  · have ha : (fallbackVariation k).body.length =
        (("Engaging body text that drives action and converts visitors into customers " : String)).length +
          (natToStr (k + 1)).length :=
      strLength_append _ _
    have hb : (("Engaging body text that drives action and converts visitors into customers " : String)).length ≤ 140 := by
      decide
    omega
  · have ha : (fallbackVariation k).callToAction.length =
        (("Act Now " : String)).length + (natToStr (k + 1)).length :=
      strLength_append _ _
    have hb : (("Act Now " : String)).length = 8 := by decide
    omega

theorem get?_enumFrom_map {α β : Type} (f : Nat → α → β) :
    ∀ (start i : Nat) (l : List α),
      (((List.enumFrom start l).map (fun p => f p.1 p.2)).get? i) =
        (l.get? i).map (f (start + i)) := by
  intro start i l
  induction l generalizing start i with
  | nil => rfl
  | cons a rest ih =>
    cases i with
    | zero => rfl
    | succ j =>
      show ((List.enumFrom (start + 1) rest).map (fun p => f p.1 p.2)).get? j =
        (rest.get? j).map (f (start + (j + 1)))
      have harith : start + 1 + j = start + (j + 1) := by omega
      rw [ih (start + 1) j, harith]

/-- Claim C10: for every model output and every requested count (within
the range a JS array can hold), `parseGeneratedContent` returns exactly
`expectedCount` variations numbered `1 … expectedCount` in order —
surplus blocks are cut, missing ones padded with the deterministic
fallbacks — and every returned variation obeys the field limits
`headline ≤ 60`, `body ≤ 150`, `callToAction ≤ 30`, over-long parsed
fields being truncated with a trailing `"..."`. -/
theorem claim_C10_parse_contract (txt : String) (expectedCount : Nat)
    (hec : expectedCount ≤ 4294967295) :
    (parseGeneratedContent txt expectedCount).length = expectedCount
    ∧ (∀ i, i < expectedCount →
        ((parseGeneratedContent txt expectedCount).get? i).map
          (fun v => v.variationNumber) = some (i + 1))
    ∧ (∀ v ∈ parseGeneratedContent txt expectedCount,
        v.headline.length ≤ 60 ∧ v.body.length ≤ 150 ∧ v.callToAction.length ≤ 30) := by
  have hplen : (((splitVariationBlocks txt.data).take expectedCount).enum.map
      (fun p => parseVariationBlock p.2 p.1)).length ≤ expectedCount := by
    rw [List.length_map, List.enum_length, List.length_take]
    exact min_le_left _ _
  refine ⟨?_, ?_, ?_⟩
  · simp only [parseGeneratedContent, List.length_append, List.length_map,
      List.enum_length, List.length_range, List.length_take]
    omega
  · intro i hi
    rw [parseGeneratedContent]
    by_cases hip : i < (((splitVariationBlocks txt.data).take expectedCount).enum.map
        (fun p => parseVariationBlock p.2 p.1)).length
    · rw [List.get?_append hip]
      rw [List.enum]
      rw [get?_enumFrom_map (fun n a => parseVariationBlock a n) 0 i]
      rw [List.length_map, List.enum_length] at hip
      cases hb : ((splitVariationBlocks txt.data).take expectedCount).get? i with
      | none =>
        rw [List.get?_eq_none] at hb
        omega
      | some b =>
        simp only [Option.map_some', Nat.zero_add]
        rfl
    · rw [List.get?_append_right (by omega)]
      rw [List.get?_map]
      rw [List.get?_range (by omega)]
      simp only [Option.map_some']
      congr 1
      show (((splitVariationBlocks txt.data).take expectedCount).enum.map
          (fun p => parseVariationBlock p.2 p.1)).length +
        (i - (((splitVariationBlocks txt.data).take expectedCount).enum.map
          (fun p => parseVariationBlock p.2 p.1)).length) + 1 = i + 1
      omega
  · intro v hv
    rw [parseGeneratedContent] at hv
    rcases List.mem_append.mp hv with hv1 | hv2
    · obtain ⟨p, hpmem, hpv⟩ := List.mem_map.mp hv1
      rw [← hpv]
      exact parseVariationBlock_bounds p.2 p.1
    · obtain ⟨j, hjmem, hjv⟩ := List.mem_map.mp hv2
      have hj := List.mem_range.mp hjmem
      rw [← hjv]
      apply fallbackVariation_bounds
      have hpow : (10 : Nat) ^ 10 = 10000000000 := by norm_num
      omega

/-- Claim C10 witness: a two-block model output parsed with
`expectedCount = 3` — three variations numbered 1, 2, 3, the third
being the padding fallback, all within the field limits. -/
theorem claim_C10_witness :
    (3 : Nat) ≤ 4294967295
    ∧ (parseGeneratedContent
        ("VARIATION 1:\nHEADLINE: Big Sale Now\nBODY: Save big today.\nCTA: Shop Now\n\nVARIATION 2:\nHEADLINE: Second One\nBODY: More text here.\nCTA: Go\n") 3).length = 3
    ∧ ((parseGeneratedContent
        ("VARIATION 1:\nHEADLINE: Big Sale Now\nBODY: Save big today.\nCTA: Shop Now\n\nVARIATION 2:\nHEADLINE: Second One\nBODY: More text here.\nCTA: Go\n") 3).get? 2).map
        (fun v => v.variationNumber) = some 3 := by
  refine ⟨by norm_num, ?_, ?_⟩
  · exact (claim_C10_parse_contract
      ("VARIATION 1:\nHEADLINE: Big Sale Now\nBODY: Save big today.\nCTA: Shop Now\n\nVARIATION 2:\nHEADLINE: Second One\nBODY: More text here.\nCTA: Go\n") 3
      (by norm_num)).1
  · exact (claim_C10_parse_contract
      ("VARIATION 1:\nHEADLINE: Big Sale Now\nBODY: Save big today.\nCTA: Shop Now\n\nVARIATION 2:\nHEADLINE: Second One\nBODY: More text here.\nCTA: Go\n") 3
      (by norm_num)).2.1 2 (by norm_num)
